import Mathlib

/-! # libFactory: the registry and the two factory shapes

A shallow embedding of `libFactory.h`.

* The function-local static `typeRegistry` of `FactoryBase::getTypeRegistry`
  is process-wide mutable state; here it is passed explicitly: every static
  member function takes the registry it reads and returns the registry it
  leaves behind next to its C++ return value.
* `std::map<identifierType, creatorFunctionType>` is represented by its
  in-order sequence of `(key, value)` pairs, strictly ascending by key (the
  sequence `operator==` on two maps compares).  `identifierType` is any
  linearly ordered type, so that equivalence under `std::less` is equality.
* `functorReturn` defaults to `std::unique_ptr<baseClass>`; it is `Option β`
  with `nullptr` as `none`.  A creator function `functorReturn (*)(void)` is
  a function `Unit → Option β`, a `functorReturn (*)(arg1Type)` a function
  `α → Option β`.  A stored creator function is thus a non-null pointer to a
  function that returns normally and does not itself touch the registry, and
  `new object(...)` is taken to succeed.
* A creator function that does call the factory on its own registry is
  covered by `BasicFactory.createWith` and `SingleArgumentFactory.createWith`:
  there the registry stores function pointers as plain values and a separate
  function says what calling each pointer returns and does to the registry.
-/

namespace libFactory

universe u v w

/-! ## `std::map` as a strictly ascending association list -/

/-- Linear search for the value stored under `id`: `std::map::find`, with
`none` standing for the past-the-end iterator and `some f` for an iterator
whose `second` is `f`. -/
def findEntry {K : Type u} {F : Type v} [LinearOrder K] (id : K) :
    List (K × F) → Option F
  | [] => none
  | (k, f) :: rest => if k = id then some f else findEntry id rest

/-- The statement `reg[id] = f`: `std::map::operator[]` finds the element of
key `id`, inserting one at its place in the key order when there is none, and
the assignment stores `f` in it. -/
def assignEntry {K : Type u} {F : Type v} [LinearOrder K] (id : K) (f : F) :
    List (K × F) → List (K × F)
  | [] => [(id, f)]
  | (k, g) :: rest =>
      if id < k then (id, f) :: (k, g) :: rest
      else if k < id then (k, g) :: assignEntry id f rest
      else (k, f) :: rest

/-- The call `reg.erase(id)`: every element whose key is `id` goes. -/
def eraseEntry {K : Type u} {F : Type v} [LinearOrder K] (id : K)
    (l : List (K × F)) : List (K × F) :=
  l.filter (fun e => decide (e.1 ≠ id))

/-- Keys strictly ascending along the list: the order invariant of a
`std::map`, which also makes the keys pairwise distinct. -/
def Ascending {K : Type u} {F : Type v} [LinearOrder K] (l : List (K × F)) : Prop :=
  l.Pairwise (fun a b => a.1 < b.1)

instance {K : Type u} {F : Type v} [LinearOrder K] (l : List (K × F)) :
    Decidable (Ascending l) := by
  unfold Ascending; infer_instance

theorem ascending_nil {K : Type u} {F : Type v} [LinearOrder K] :
    Ascending ([] : List (K × F)) := List.Pairwise.nil

theorem ascending_eraseEntry {K : Type u} {F : Type v} [LinearOrder K] (id : K)
    {l : List (K × F)} (h : Ascending l) : Ascending (eraseEntry id l) :=
  List.Pairwise.filter _ h

theorem mem_assignEntry {K : Type u} {F : Type v} [LinearOrder K] (id : K) (f : F)
    (l : List (K × F)) (e : K × F) (he : e ∈ assignEntry id f l) :
    e = (id, f) ∨ e ∈ l := by
  induction l with
  | nil =>
    simp only [assignEntry, List.mem_singleton] at he
    exact Or.inl he
  | cons hd tl ih =>
    obtain ⟨k, g⟩ := hd
    simp only [assignEntry] at he
    split_ifs at he with h1 h2
    · rcases List.mem_cons.1 he with h | h
      · exact Or.inl h
      · exact Or.inr h
    · rcases List.mem_cons.1 he with h | h
      · exact Or.inr (h ▸ List.mem_cons_self _ _)
      · rcases ih h with h' | h'
        · exact Or.inl h'
        · exact Or.inr (List.mem_cons_of_mem _ h')
    · have hk : k = id := le_antisymm (not_lt.1 h1) (not_lt.1 h2)
      rcases List.mem_cons.1 he with h | h
      · exact Or.inl (by rw [h, hk])
      · exact Or.inr (List.mem_cons_of_mem _ h)

theorem ascending_assignEntry {K : Type u} {F : Type v} [LinearOrder K] (id : K) (f : F)
    {l : List (K × F)} (h : Ascending l) : Ascending (assignEntry id f l) := by
  induction l with
  | nil => simp [assignEntry, Ascending]
  | cons hd tl ih =>
    obtain ⟨k, g⟩ := hd
    have hcons := List.pairwise_cons.1 h
    simp only [assignEntry]
    split_ifs with h1 h2
    · refine List.pairwise_cons.2 ⟨?_, h⟩
      intro e he
      rcases List.mem_cons.1 he with h' | h'
      · rw [h']; exact h1
      · exact lt_trans h1 (hcons.1 e h')
    · refine List.pairwise_cons.2 ⟨?_, ih hcons.2⟩
      intro e he
      rcases mem_assignEntry id f tl e he with h' | h'
      · rw [h']; exact h2
      · exact hcons.1 e h'
    · exact List.pairwise_cons.2 ⟨hcons.1, hcons.2⟩

/-- The registry map type `std::map<identifierType, creatorFunctionType>`. -/
structure registryMapType (K : Type u) (F : Type v) [LinearOrder K] where
  /-- The elements in key order. -/
  entries : List (K × F)
  /-- The keys are strictly ascending. -/
  ordered : Ascending entries

namespace registryMapType

variable {K : Type u} {F : Type v} [LinearOrder K]

/-- A default-constructed map: the initial value of the static `typeRegistry`. -/
def empty : registryMapType K F := ⟨[], ascending_nil⟩

/-- The keys stored in the map, ascending. -/
def keys (reg : registryMapType K F) : List K := reg.entries.map Prod.fst

/-- `reg.find(id)`: `none` is `reg.end()`, `some f` an iterator with
`it->second == f`. -/
def find (reg : registryMapType K F) (id : K) : Option F := findEntry id reg.entries

/-- `reg[id] = f`. -/
def assign (reg : registryMapType K F) (id : K) (f : F) : registryMapType K F :=
  ⟨assignEntry id f reg.entries, ascending_assignEntry id f reg.ordered⟩

/-- `reg.erase(id)`. -/
def erase (reg : registryMapType K F) (id : K) : registryMapType K F :=
  ⟨eraseEntry id reg.entries, ascending_eraseEntry id reg.ordered⟩

/-- `reg.clear()`. -/
def clear (_reg : registryMapType K F) : registryMapType K F := ⟨[], ascending_nil⟩

end registryMapType

/-! ## `FactoryBase` -/

namespace FactoryBase

variable {K : Type u} {F : Type v} [LinearOrder K]

/-- `FactoryBase::registerCreatorFunc(id, funcCreate)`: the returned `bool`
and the registry afterwards. -/
def registerCreatorFunc (reg : registryMapType K F) (id : K) (funcCreate : F) :
    Bool × registryMapType K F :=
  match reg.find id with
  | none => (true, reg.assign id funcCreate)
  | some _ => (false, reg)

/-- `FactoryBase::removeCreatorFunc(id)`: the returned `bool` and the registry
afterwards. -/
def removeCreatorFunc (reg : registryMapType K F) (id : K) :
    Bool × registryMapType K F :=
  match reg.find id with
  | some _ => (true, reg.erase id)
  | none => (false, reg)

/-- `FactoryBase::clearRegistry()`: the registry afterwards. -/
def clearRegistry (reg : registryMapType K F) : registryMapType K F := reg.clear

end FactoryBase

/-! ## `BasicFactory` -/

/-- What `BasicFactory::registerObject<object>()` asks of its template
argument `object`: a static `getFactoryID()` and a default constructor, whose
result is held as a `baseClass` (`β`). -/
structure objectClass (K : Type u) (β : Type v) where
  /-- `object::getFactoryID()`. -/
  getFactoryID : Unit → K
  /-- `new object()`, seen through a pointer to `baseClass`. -/
  construct : Unit → β

namespace BasicFactory

variable {K : Type u} {β : Type v} [LinearOrder K]

/-- `BasicFactory::create(id)` for stored creator functions that leave the
registry alone: the returned `functorReturn` and the registry afterwards.
`BasicFactory.createWith` is the same function for creator functions that may
change the registry. -/
def create (reg : registryMapType K (Unit → Option β)) (id : K) :
    Option β × registryMapType K (Unit → Option β) :=
  match reg.find id with
  | some f => (f (), reg)
  | none => (none, reg)

/-- `BasicFactory::registerObject<object>()`, the overload without an id. -/
def registerObject (object : objectClass K β) (reg : registryMapType K (Unit → Option β)) :
    Bool × registryMapType K (Unit → Option β) :=
  FactoryBase.registerCreatorFunc reg (object.getFactoryID ())
    (fun _ => some (object.construct ()))

/-- `BasicFactory::registerObject<object>(identifierType id)`, the overload
with an id; of `object` it uses the default constructor only. -/
def registerObject_id (construct : Unit → β) (reg : registryMapType K (Unit → Option β))
    (id : K) : Bool × registryMapType K (Unit → Option β) :=
  FactoryBase.registerCreatorFunc reg id (fun _ => some (construct ()))

end BasicFactory

/-! ## `SingleArgumentFactory` -/

/-- What `SingleArgumentFactory::registerObjectConstructor<object>()` asks of
its template argument `object`: a static `getFactoryID()` and a constructor
taking one `arg1Type` (`α`). -/
structure objectClass1 (K : Type u) (α : Type w) (β : Type v) where
  /-- `object::getFactoryID()`. -/
  getFactoryID : Unit → K
  /-- `new object(arg1)`, seen through a pointer to `baseClass`. -/
  construct : α → β

namespace SingleArgumentFactory

variable {K : Type u} {α : Type w} {β : Type v} [LinearOrder K]

/-- `SingleArgumentFactory::create(id, arg1)` for stored creator functions
that leave the registry alone: the returned `functorReturn` and the registry
afterwards.  `SingleArgumentFactory.createWith` is the same function for
creator functions that may change the registry. -/
def create (reg : registryMapType K (α → Option β)) (id : K) (arg1 : α) :
    Option β × registryMapType K (α → Option β) :=
  match reg.find id with
  | some f => (f arg1, reg)
  | none => (none, reg)

/-- `SingleArgumentFactory::registerObjectConstructor<object>()`, the overload
without an id. -/
def registerObjectConstructor (object : objectClass1 K α β)
    (reg : registryMapType K (α → Option β)) : Bool × registryMapType K (α → Option β) :=
  FactoryBase.registerCreatorFunc reg (object.getFactoryID ())
    (fun arg1 => some (object.construct arg1))

/-- `SingleArgumentFactory::registerObjectConstructor<object>(identifierType id)`,
the overload with an id; of `object` it uses the one-argument constructor only. -/
def registerObjectConstructor_id (construct : α → β)
    (reg : registryMapType K (α → Option β)) (id : K) :
    Bool × registryMapType K (α → Option β) :=
  FactoryBase.registerCreatorFunc reg id (fun arg1 => some (construct arg1))

end SingleArgumentFactory

/-! ## The classes of `GoogleTests/basicFactoryTests.cpp` -/

namespace basicFactoryTests

/-- The class an object was constructed as; it selects the `incA` override. -/
inductive dynamicType where
  | testBaseClass
  | testDerivA
  | testDerivB
  deriving DecidableEq, Repr

/-- An object held through `std::unique_ptr<testBaseClass>`: its dynamic type
and its `int a` member.  The model is exact while `a` stays in the range of
`int`; the scenarios below never leave `0..3`. -/
structure testObject where
  dyn : dynamicType
  a : Int
  deriving DecidableEq, Repr

/-- The virtual call `p->incA()`. -/
def testObject.incA (o : testObject) : testObject :=
  match o.dyn with
  | .testBaseClass => { o with a := o.a + 1 }
  | .testDerivA => { o with a := o.a + 2 }
  | .testDerivB => { o with a := o.a + 3 }

/-- `struct testBaseClass`: id 0, `a = 0` on construction. -/
def testBaseClass : objectClass Int testObject :=
  { getFactoryID := fun _ => 0, construct := fun _ => ⟨.testBaseClass, 0⟩ }

/-- `struct testDerivA`: id 1, `a = 0` on construction. -/
def testDerivA : objectClass Int testObject :=
  { getFactoryID := fun _ => 1, construct := fun _ => ⟨.testDerivA, 0⟩ }

/-- `struct testDerivB`: id 2, `a = 0` on construction. -/
def testDerivB : objectClass Int testObject :=
  { getFactoryID := fun _ => 2, construct := fun _ => ⟨.testDerivB, 0⟩ }

end basicFactoryTests

/-! ## The classes of `GoogleTests/singleArgumentFactoryTests.cpp` -/

namespace singleArgumentFactoryTests

/-- The class an object was constructed as; it selects the `incA` override. -/
inductive dynamicType where
  | testBaseClass
  | testDerivA
  | testDerivB
  deriving DecidableEq, Repr

/-- An object held through `std::unique_ptr<testBaseClass>`: its dynamic type
and its `int a` member, exact while `a` stays in the range of `int`. -/
structure testObject where
  dyn : dynamicType
  a : Int
  deriving DecidableEq, Repr

/-- The virtual call `p->incA()`. -/
def testObject.incA (o : testObject) : testObject :=
  match o.dyn with
  | .testBaseClass => { o with a := o.a + 1 }
  | .testDerivA => { o with a := o.a + 2 }
  | .testDerivB => { o with a := o.a + 3 }

/-- `struct testBaseClass`: id 0, constructor `testBaseClass(int a) : a(a)`. -/
def testBaseClass : objectClass1 Int Int testObject :=
  { getFactoryID := fun _ => 0, construct := fun a => ⟨.testBaseClass, a⟩ }

/-- `struct testDerivA`: id 1, constructor `testDerivA(int a) : testBaseClass(a)`. -/
def testDerivA : objectClass1 Int Int testObject :=
  { getFactoryID := fun _ => 1, construct := fun a => ⟨.testDerivA, a⟩ }

/-- `struct testDerivB`: id 2, constructor `testDerivB(int a) : testBaseClass(a)`. -/
def testDerivB : objectClass1 Int Int testObject :=
  { getFactoryID := fun _ => 2, construct := fun a => ⟨.testDerivB, a⟩ }

end singleArgumentFactoryTests

/-! ## `autoRegister` -/

/-- What `autoRegister<factory, object>` asks of its template argument
`object`: a static `getFactoryID()` and a static `create` of the factory's
creator function type `F`. -/
structure autoRegisterClass (K : Type u) (F : Type v) where
  /-- `object::getFactoryID()`. -/
  getFactoryID : Unit → K
  /-- `object::create`, the function whose address is registered. -/
  create : F

namespace autoRegister

variable {K : Type u} {F : Type v} [LinearOrder K]

/-- `autoRegister<factory, object>::_registerWithFactory_()`: the returned
`bool` and the registry of `factory` afterwards. -/
def _registerWithFactory_ (object : autoRegisterClass K F) (reg : registryMapType K F) :
    Bool × registryMapType K F :=
  FactoryBase.registerCreatorFunc reg (object.getFactoryID ()) object.create

/-- The initializer of the static member `libFactory_bRegistered`: the value
the member gets, which is the result of `_registerWithFactory_()`, and the
registry afterwards. -/
def libFactory_bRegistered (object : autoRegisterClass K F) (reg : registryMapType K F) :
    Bool × registryMapType K F :=
  _registerWithFactory_ object reg

/-- Static initialization: the initializers of the markers of the classes in
`objects` run one after the other, in the order of the list, on the registry
`reg`.  The result lists the markers in that same order, with the registry
that is left. -/
def staticInitialization : List (autoRegisterClass K F) → registryMapType K F →
    List Bool × registryMapType K F
  | [], reg => ([], reg)
  | object :: rest, reg =>
      let r := libFactory_bRegistered object reg
      let rs := staticInitialization rest r.2
      (r.1 :: rs.1, rs.2)

end autoRegister

/-! ## The classes of `GoogleTests/autoRegistrationTests.cpp`

Every constructor of an auto-registering class starts with
`assert(libFactory_bRegistered)`.  The assertion does not contribute to the
constructed value; it holds when the marker computed by
`autoRegister.libFactory_bRegistered` is true, which the scenario theorems
state next to what `create` returns. -/

namespace autoRegistrationTests

/-- The class an object of base `testBaseAutoregClass` was constructed as. -/
inductive dynamicType where
  | testBaseAutoregClass
  | testDerivA
  | testDerivB
  deriving DecidableEq, Repr

/-- An object held through `std::unique_ptr<testBaseAutoregClass>`. -/
structure testObject where
  dyn : dynamicType
  a : Int
  deriving DecidableEq, Repr

/-- The virtual call `p->incA()` on a `testBaseAutoregClass`. -/
def testObject.incA (o : testObject) : testObject :=
  match o.dyn with
  | .testBaseAutoregClass => { o with a := o.a + 1 }
  | .testDerivA => { o with a := o.a + 2 }
  | .testDerivB => { o with a := o.a + 3 }

/-- `testBaseAutoregClass::getFactoryID()`; the base class does not
auto-register. -/
def testBaseAutoregClass_getFactoryID : Unit → Int := fun _ => 0

/-- `struct testDerivA`: id 1, `create()` is `std::make_unique<testDerivA>()`. -/
def testDerivA : autoRegisterClass Int (Unit → Option testObject) :=
  { getFactoryID := fun _ => 1, create := fun _ => some ⟨.testDerivA, 0⟩ }

/-- `struct testDerivB`: id 2, `create()` is `std::make_unique<testDerivB>()`. -/
def testDerivB : autoRegisterClass Int (Unit → Option testObject) :=
  { getFactoryID := fun _ => 2, create := fun _ => some ⟨.testDerivB, 0⟩ }

/-- The class an object of base `testBaseSingleArg` was constructed as. -/
inductive dynamicType1 where
  | testBaseSingleArg
  | testDerivSingleArgA
  | testDerivSingleArgB
  deriving DecidableEq, Repr

/-- An object held through `std::unique_ptr<testBaseSingleArg>`. -/
structure testObject1 where
  dyn : dynamicType1
  a : Int
  deriving DecidableEq, Repr

/-- The virtual call `p->incA()` on a `testBaseSingleArg`. -/
def testObject1.incA (o : testObject1) : testObject1 :=
  match o.dyn with
  | .testBaseSingleArg => { o with a := o.a + 1 }
  | .testDerivSingleArgA => { o with a := o.a + 2 }
  | .testDerivSingleArgB => { o with a := o.a + 3 }

/-- `struct testDerivSingleArgA`: id 1, `create(arg1)` is
`std::make_unique<testDerivSingleArgA>(arg1)`. -/
def testDerivSingleArgA : autoRegisterClass Int (Int → Option testObject1) :=
  { getFactoryID := fun _ => 1, create := fun arg1 => some ⟨.testDerivSingleArgA, arg1⟩ }

/-- `struct testDerivSingleArgB`: id 2, `create(arg1)` is
`std::make_unique<testDerivSingleArgB>(arg1)`. -/
def testDerivSingleArgB : autoRegisterClass Int (Int → Option testObject1) :=
  { getFactoryID := fun _ => 2, create := fun arg1 => some ⟨.testDerivSingleArgB, arg1⟩ }

end autoRegistrationTests

/-! ## One registry per instantiation of `FactoryBase`

`getTypeRegistry` returns a function-local static, so every instantiation
`FactoryBase<baseClass, creatorFunctionType, identifierType>` has a registry of
its own.  For one base class and one identifier type, the two factory shapes
differ in `creatorFunctionType`; the registries of the program are indexed by
it. -/

/-- The creator function type a factory shape passes to `FactoryBase`:
`functorReturn (*)(void)` for `BasicFactory`, `functorReturn (*)(arg1Type)`
for `SingleArgumentFactory`. -/
inductive creatorShape where
  | zeroArgument
  | singleArgument
  deriving DecidableEq, Repr

/-- The type `creatorFunctionType` of a shape, for argument type `α` and
instances `β` of the base class. -/
def creatorShape.creatorFunctionType (α β : Type v) : creatorShape → Type v
  | .zeroArgument => Unit → Option β
  | .singleArgument => α → Option β

/-- The static `typeRegistry` objects of a program that uses both factory
shapes over one base class: one per instantiation. -/
def typeRegistries (K : Type u) (α β : Type v) [LinearOrder K] : Type (max u v) :=
  (shape : creatorShape) → registryMapType K (shape.creatorFunctionType α β)

namespace typeRegistries

variable {K : Type u} {α β : Type v} [LinearOrder K]

/-- `getTypeRegistry()` of the instantiation `shape`. -/
def getTypeRegistry (regs : typeRegistries K α β) (shape : creatorShape) :
    registryMapType K (shape.creatorFunctionType α β) :=
  regs shape

/-- The registries once the one `getTypeRegistry()` of `shape` refers to has
become `reg`. -/
def setTypeRegistry (regs : typeRegistries K α β) (shape : creatorShape)
    (reg : registryMapType K (shape.creatorFunctionType α β)) : typeRegistries K α β :=
  Function.update regs shape reg

/-- `registerCreatorFunc(id, funcCreate)` called on the factory of `shape`. -/
def registerCreatorFunc (regs : typeRegistries K α β) (shape : creatorShape) (id : K)
    (funcCreate : shape.creatorFunctionType α β) : Bool × typeRegistries K α β :=
  ((FactoryBase.registerCreatorFunc (regs.getTypeRegistry shape) id funcCreate).1,
    regs.setTypeRegistry shape
      (FactoryBase.registerCreatorFunc (regs.getTypeRegistry shape) id funcCreate).2)

/-- `removeCreatorFunc(id)` called on the factory of `shape`. -/
def removeCreatorFunc (regs : typeRegistries K α β) (shape : creatorShape) (id : K) :
    Bool × typeRegistries K α β :=
  ((FactoryBase.removeCreatorFunc (regs.getTypeRegistry shape) id).1,
    regs.setTypeRegistry shape (FactoryBase.removeCreatorFunc (regs.getTypeRegistry shape) id).2)

/-- `clearRegistry()` called on the factory of `shape`. -/
def clearRegistry (regs : typeRegistries K α β) (shape : creatorShape) :
    typeRegistries K α β :=
  regs.setTypeRegistry shape (FactoryBase.clearRegistry (regs.getTypeRegistry shape))

end typeRegistries

/-! ## Sequences of calls that change a registry without `registerCreatorFunc` -/

namespace BasicFactory

variable {K : Type u} {β : Type v} [LinearOrder K]

/-- A call on a `BasicFactory` that may change its registry, other than a
direct `registerCreatorFunc`. -/
inductive helperCall (K : Type u) (β : Type v) where
  | registerObject (object : objectClass K β)
  | registerObject_id (construct : Unit → β) (id : K)
  | removeCreatorFunc (id : K)
  | clearRegistry

/-- The registry after one such call. -/
def helperCall.run : helperCall K β → registryMapType K (Unit → Option β) →
    registryMapType K (Unit → Option β)
  | .registerObject object, reg => (BasicFactory.registerObject object reg).2
  | .registerObject_id construct id, reg => (BasicFactory.registerObject_id construct reg id).2
  | .removeCreatorFunc id, reg => (FactoryBase.removeCreatorFunc reg id).2
  | .clearRegistry, reg => FactoryBase.clearRegistry reg

/-- The registry after a sequence of such calls, first call first. -/
def runCalls : List (helperCall K β) → registryMapType K (Unit → Option β) →
    registryMapType K (Unit → Option β)
  | [], reg => reg
  | call :: rest, reg => runCalls rest (call.run reg)

end BasicFactory

namespace SingleArgumentFactory

variable {K : Type u} {α : Type w} {β : Type v} [LinearOrder K]

/-- A call on a `SingleArgumentFactory` that may change its registry, other
than a direct `registerCreatorFunc`. -/
inductive helperCall (K : Type u) (α : Type w) (β : Type v) where
  | registerObjectConstructor (object : objectClass1 K α β)
  | registerObjectConstructor_id (construct : α → β) (id : K)
  | removeCreatorFunc (id : K)
  | clearRegistry

/-- The registry after one such call. -/
def helperCall.run : helperCall K α β → registryMapType K (α → Option β) →
    registryMapType K (α → Option β)
  | .registerObjectConstructor object, reg =>
      (SingleArgumentFactory.registerObjectConstructor object reg).2
  | .registerObjectConstructor_id construct id, reg =>
      (SingleArgumentFactory.registerObjectConstructor_id construct reg id).2
  | .removeCreatorFunc id, reg => (FactoryBase.removeCreatorFunc reg id).2
  | .clearRegistry, reg => FactoryBase.clearRegistry reg

/-- The registry after a sequence of such calls, first call first. -/
def runCalls : List (helperCall K α β) → registryMapType K (α → Option β) →
    registryMapType K (α → Option β)
  | [], reg => reg
  | call :: rest, reg => runCalls rest (call.run reg)

end SingleArgumentFactory

/-- Every creator function stored in the registry satisfies `P`. -/
def registryMapType.AllCreators {K : Type u} {F : Type v} [LinearOrder K] (P : F → Prop)
    (reg : registryMapType K F) : Prop :=
  ∀ e ∈ reg.entries, P e.2

/-! ## `create` with creator functions that act on the registry

A creator function is arbitrary code: it may call `registerCreatorFunc`,
`removeCreatorFunc` or `clearRegistry` of the very factory that calls it.
Here the registry stores function pointers as values of a type `P`, and
`call p reg` is what a call of `p` returns together with the registry it
leaves when it is entered with the registry `reg`. -/

/-- `BasicFactory::create(id)`: `reg.find(id)`, then either the call
`it->second()`, whose result is returned and whose effect on the registry
stays, or `nullptr` with the registry as it was. -/
def BasicFactory.createWith {K : Type u} {P : Type v} {β : Type w} [LinearOrder K]
    (call : P → registryMapType K P → Option β × registryMapType K P)
    (reg : registryMapType K P) (id : K) : Option β × registryMapType K P :=
  match reg.find id with
  | some p => call p reg
  | none => (none, reg)

/-- `SingleArgumentFactory::create(id, arg1)`: `reg.find(id)`, then either the
call `it->second(arg1)`, whose result is returned and whose effect on the
registry stays, or `nullptr` with the registry as it was. -/
def SingleArgumentFactory.createWith {K : Type u} {P : Type v} {α β : Type w}
    [LinearOrder K]
    (call : P → α → registryMapType K P → Option β × registryMapType K P)
    (reg : registryMapType K P) (id : K) (arg1 : α) : Option β × registryMapType K P :=
  match reg.find id with
  | some p => call p arg1 reg
  | none => (none, reg)

/-! ## Facts about the map operations -/

section MapLemmas

variable {K : Type u} {F : Type v} [LinearOrder K]

theorem registryMapType.ext_entries {r s : registryMapType K F}
    (h : r.entries = s.entries) : r = s := by
  cases r; cases s; cases h; rfl

theorem findEntry_eq_none_iff (id : K) (l : List (K × F)) :
    findEntry id l = none ↔ id ∉ l.map Prod.fst := by
  induction l with
  | nil => simp [findEntry]
  | cons hd tl ih =>
    obtain ⟨k, g⟩ := hd
    by_cases hk : k = id
    · simp [findEntry, hk]
    · have hk2 : ¬ id = k := fun h => hk h.symm
      simp only [findEntry, if_neg hk, ih, List.map_cons, List.mem_cons, not_or]
      exact ⟨fun h => ⟨hk2, h⟩, fun h => h.2⟩

theorem findEntry_eq_some_iff (id : K) (f : F) {l : List (K × F)} (hl : Ascending l) :
    findEntry id l = some f ↔ (id, f) ∈ l := by
  induction l with
  | nil => simp [findEntry]
  | cons hd tl ih =>
    obtain ⟨k, g⟩ := hd
    have hcons := List.pairwise_cons.1 hl
    by_cases hk : k = id
    · subst hk
      simp only [findEntry, if_true, Option.some.injEq, List.mem_cons, Prod.mk.injEq,
        true_and]
      constructor
      · intro h; exact Or.inl h.symm
      · rintro (h | h)
        · exact h.symm
        · exact absurd (hcons.1 _ h) (lt_irrefl _)
    · simp only [findEntry, if_neg hk, ih hcons.2, List.mem_cons, Prod.mk.injEq]
      constructor
      · intro h; exact Or.inr h
      · rintro (h | h)
        · exact absurd h.1.symm hk
        · exact h

theorem findEntry_assignEntry_self (id : K) (f : F) (l : List (K × F)) :
    findEntry id (assignEntry id f l) = some f := by
  induction l with
  | nil => simp [assignEntry, findEntry]
  | cons hd tl ih =>
    obtain ⟨k, g⟩ := hd
    simp only [assignEntry]
    split_ifs with h1 h2
    · simp [findEntry]
    · simp [findEntry, ne_of_lt h2, ih]
    · have hk : k = id := le_antisymm (not_lt.1 h1) (not_lt.1 h2)
      simp [findEntry, hk]

theorem findEntry_assignEntry_of_ne {id j : K} (hj : j ≠ id) (f : F) (l : List (K × F)) :
    findEntry j (assignEntry id f l) = findEntry j l := by
  induction l with
  | nil => simp [assignEntry, findEntry, hj.symm]
  | cons hd tl ih =>
    obtain ⟨k, g⟩ := hd
    simp only [assignEntry]
    split_ifs with h1 h2
    · simp [findEntry, hj.symm]
    · by_cases hkj : k = j
      · simp [findEntry, hkj]
      · simp [findEntry, hkj, ih]
    · have hk : k = id := le_antisymm (not_lt.1 h1) (not_lt.1 h2)
      have hkj : ¬ k = j := fun h => hj (h.symm.trans hk)
      simp [findEntry, hkj]

theorem findEntry_eraseEntry_self (id : K) (l : List (K × F)) :
    findEntry id (eraseEntry id l) = none := by
  rw [findEntry_eq_none_iff]
  simp [eraseEntry, List.mem_filter]

theorem eraseEntry_cons_of_eq (id : K) (g : F) (tl : List (K × F)) :
    eraseEntry id ((id, g) :: tl) = eraseEntry id tl := by
  simp [eraseEntry]

theorem eraseEntry_cons_of_ne {id k : K} (hk : k ≠ id) (g : F) (tl : List (K × F)) :
    eraseEntry id ((k, g) :: tl) = (k, g) :: eraseEntry id tl := by
  simp [eraseEntry, hk]

theorem registryMapType.find_eq_none_iff (reg : registryMapType K F) (id : K) :
    reg.find id = none ↔ id ∉ reg.keys :=
  findEntry_eq_none_iff id reg.entries

theorem registryMapType.find_eq_some_iff (reg : registryMapType K F) (id : K) (f : F) :
    reg.find id = some f ↔ (id, f) ∈ reg.entries :=
  findEntry_eq_some_iff id f reg.ordered

theorem registryMapType.find_isSome_iff (reg : registryMapType K F) (id : K) :
    (∃ f, reg.find id = some f) ↔ id ∈ reg.keys := by
  have h := reg.find_eq_none_iff id
  cases hf : reg.find id with
  | none => simp [(h.1 hf)]
  | some f =>
    have : id ∈ reg.keys := by
      by_contra hc
      rw [h.2 hc] at hf
      cases hf
    simp [this]

theorem registryMapType.find_assign_self (reg : registryMapType K F) (id : K) (f : F) :
    (reg.assign id f).find id = some f :=
  findEntry_assignEntry_self id f reg.entries

theorem registryMapType.find_assign_of_ne (reg : registryMapType K F) {id j : K}
    (hj : j ≠ id) (f : F) : (reg.assign id f).find j = reg.find j :=
  findEntry_assignEntry_of_ne hj f reg.entries

theorem registryMapType.find_erase_self (reg : registryMapType K F) (id : K) :
    (reg.erase id).find id = none :=
  findEntry_eraseEntry_self id reg.entries

theorem assignEntry_cons_lt {id k : K} (h : id < k) (f g : F) (tl : List (K × F)) :
    assignEntry id f ((k, g) :: tl) = (id, f) :: (k, g) :: tl := by
  simp [assignEntry, h]

theorem assignEntry_cons_gt {id k : K} (h : k < id) (f g : F) (tl : List (K × F)) :
    assignEntry id f ((k, g) :: tl) = (k, g) :: assignEntry id f tl := by
  simp [assignEntry, h, not_lt_of_gt h]

theorem assignEntry_cons_eq (id : K) (f g : F) (tl : List (K × F)) :
    assignEntry id f ((id, g) :: tl) = (id, f) :: tl := by
  simp [assignEntry]

theorem assignEntry_comm_of_lt {i j : K} (hij : i < j) (c1 c2 : F) (l : List (K × F)) :
    assignEntry i c1 (assignEntry j c2 l) = assignEntry j c2 (assignEntry i c1 l) := by
  induction l with
  | nil =>
    show assignEntry i c1 [(j, c2)] = assignEntry j c2 [(i, c1)]
    rw [assignEntry_cons_lt hij, assignEntry_cons_gt hij]
    rfl
  | cons hd tl ih =>
    obtain ⟨k, g⟩ := hd
    rcases lt_trichotomy j k with hjk | hjk | hjk
    · have hik : i < k := lt_trans hij hjk
      rw [assignEntry_cons_lt hjk, assignEntry_cons_lt hij, assignEntry_cons_lt hik,
        assignEntry_cons_gt hij, assignEntry_cons_lt hjk]
    · subst hjk
      rw [assignEntry_cons_eq, assignEntry_cons_lt hij, assignEntry_cons_lt hij,
        assignEntry_cons_gt hij, assignEntry_cons_eq]
    · rw [assignEntry_cons_gt hjk]
      rcases lt_trichotomy i k with hik | hik | hik
      · rw [assignEntry_cons_lt hik, assignEntry_cons_lt hik, assignEntry_cons_gt hij,
          assignEntry_cons_gt hjk]
      · subst hik
        rw [assignEntry_cons_eq, assignEntry_cons_eq, assignEntry_cons_gt hjk]
      · rw [assignEntry_cons_gt hik, assignEntry_cons_gt hik, assignEntry_cons_gt hjk, ih]

theorem assignEntry_comm {i j : K} (hij : i ≠ j) (c1 c2 : F) (l : List (K × F)) :
    assignEntry i c1 (assignEntry j c2 l) = assignEntry j c2 (assignEntry i c1 l) := by
  rcases lt_or_gt_of_ne hij with h | h
  · exact assignEntry_comm_of_lt h c1 c2 l
  · exact (assignEntry_comm_of_lt h c2 c1 l).symm

theorem eraseEntry_of_not_mem (id : K) (l : List (K × F)) (h : id ∉ l.map Prod.fst) :
    eraseEntry id l = l := by
  unfold eraseEntry
  rw [List.filter_eq_self]
  intro e he
  have : e.1 ≠ id := by
    intro hc
    exact h (List.mem_map.2 ⟨e, he, hc⟩)
  simpa using this

theorem eraseEntry_assignEntry (id : K) (f : F) (l : List (K × F))
    (h : id ∉ l.map Prod.fst) : eraseEntry id (assignEntry id f l) = l := by
  induction l with
  | nil => simp [assignEntry, eraseEntry]
  | cons hd tl ih =>
    obtain ⟨k, g⟩ := hd
    have hk : k ≠ id := by
      intro hc
      exact h (by simp [hc])
    have htl : id ∉ tl.map Prod.fst := by
      intro hc
      exact h (by simp at hc ⊢; exact Or.inr hc)
    rcases lt_or_gt_of_ne hk with hlt | hgt
    · rw [assignEntry_cons_gt hlt, eraseEntry_cons_of_ne hk, ih htl]
    · rw [assignEntry_cons_lt hgt, eraseEntry_cons_of_eq,
        eraseEntry_of_not_mem id _ h]

theorem registryMapType.assign_comm (reg : registryMapType K F) {i j : K} (hij : i ≠ j)
    (c1 c2 : F) : (reg.assign j c2).assign i c1 = (reg.assign i c1).assign j c2 :=
  registryMapType.ext_entries (assignEntry_comm hij c1 c2 reg.entries)

theorem registryMapType.erase_assign (reg : registryMapType K F) (id : K) (f : F)
    (h : id ∉ reg.keys) : (reg.assign id f).erase id = reg :=
  registryMapType.ext_entries (eraseEntry_assignEntry id f reg.entries h)

theorem registryMapType.mem_keys_congr {r s : registryMapType K F} {j : K}
    (h : r.find j = s.find j) : j ∈ r.keys ↔ j ∈ s.keys := by
  rw [← r.find_isSome_iff, ← s.find_isSome_iff, h]

theorem registryMapType.mem_keys_assign_of_ne (reg : registryMapType K F) {i j : K}
    (hj : j ≠ i) (c : F) : j ∈ (reg.assign i c).keys ↔ j ∈ reg.keys :=
  registryMapType.mem_keys_congr (reg.find_assign_of_ne hj c)

theorem registryMapType.mem_keys_assign_self (reg : registryMapType K F) (i : K) (c : F) :
    i ∈ (reg.assign i c).keys :=
  ((reg.assign i c).find_isSome_iff i).1 ⟨c, reg.find_assign_self i c⟩

theorem registryMapType.not_mem_keys_erase_self (reg : registryMapType K F) (i : K) :
    i ∉ (reg.erase i).keys :=
  ((reg.erase i).find_eq_none_iff i).1 (reg.find_erase_self i)

theorem registryMapType.not_mem_keys_empty (i : K) :
    i ∉ (registryMapType.empty : registryMapType K F).keys := by
  simp [registryMapType.empty, registryMapType.keys]

end MapLemmas

/-! ## Facts about the `FactoryBase` operations -/

section FactoryLemmas

variable {K : Type u} {F : Type v} {α : Type w} {β : Type v} [LinearOrder K]

theorem FactoryBase.registerCreatorFunc_of_not_mem (reg : registryMapType K F) (id : K)
    (c : F) (h : id ∉ reg.keys) :
    FactoryBase.registerCreatorFunc reg id c = (true, reg.assign id c) := by
  unfold FactoryBase.registerCreatorFunc
  rw [(reg.find_eq_none_iff id).2 h]

theorem FactoryBase.registerCreatorFunc_of_mem (reg : registryMapType K F) (id : K)
    (c : F) (h : id ∈ reg.keys) :
    FactoryBase.registerCreatorFunc reg id c = (false, reg) := by
  obtain ⟨f, hf⟩ := (reg.find_isSome_iff id).2 h
  unfold FactoryBase.registerCreatorFunc
  rw [hf]

theorem FactoryBase.removeCreatorFunc_of_mem (reg : registryMapType K F) (id : K)
    (h : id ∈ reg.keys) :
    FactoryBase.removeCreatorFunc reg id = (true, reg.erase id) := by
  obtain ⟨f, hf⟩ := (reg.find_isSome_iff id).2 h
  unfold FactoryBase.removeCreatorFunc
  rw [hf]

theorem FactoryBase.removeCreatorFunc_of_not_mem (reg : registryMapType K F) (id : K)
    (h : id ∉ reg.keys) :
    FactoryBase.removeCreatorFunc reg id = (false, reg) := by
  unfold FactoryBase.removeCreatorFunc
  rw [(reg.find_eq_none_iff id).2 h]

theorem BasicFactory.create_eq_call (reg : registryMapType K (Unit → Option β)) (id : K)
    (f : Unit → Option β) (h : reg.find id = some f) :
    BasicFactory.create reg id = (f (), reg) := by
  unfold BasicFactory.create
  rw [h]

theorem BasicFactory.create_eq_null (reg : registryMapType K (Unit → Option β)) (id : K)
    (h : reg.find id = none) : BasicFactory.create reg id = (none, reg) := by
  unfold BasicFactory.create
  rw [h]

theorem SingleArgumentFactory.create1_eq_call (reg : registryMapType K (α → Option β))
    (id : K) (x : α) (f : α → Option β) (h : reg.find id = some f) :
    SingleArgumentFactory.create reg id x = (f x, reg) := by
  unfold SingleArgumentFactory.create
  rw [h]

theorem SingleArgumentFactory.create1_eq_null (reg : registryMapType K (α → Option β))
    (id : K) (x : α) (h : reg.find id = none) :
    SingleArgumentFactory.create reg id x = (none, reg) := by
  unfold SingleArgumentFactory.create
  rw [h]

theorem registryMapType.allCreators_empty (P : F → Prop) :
    (registryMapType.empty : registryMapType K F).AllCreators P := by
  intro e he
  simp [registryMapType.empty] at he

theorem registryMapType.allCreators_assign {P : F → Prop} {reg : registryMapType K F}
    (h : reg.AllCreators P) (id : K) {c : F} (hc : P c) : (reg.assign id c).AllCreators P := by
  intro e he
  rcases mem_assignEntry id c reg.entries e he with h' | h'
  · rw [h']; exact hc
  · exact h e h'

theorem registryMapType.allCreators_erase {P : F → Prop} {reg : registryMapType K F}
    (h : reg.AllCreators P) (id : K) : (reg.erase id).AllCreators P := by
  intro e he
  exact h e (List.mem_of_mem_filter he)

theorem FactoryBase.allCreators_registerCreatorFunc {P : F → Prop}
    {reg : registryMapType K F} (h : reg.AllCreators P) (id : K) {c : F} (hc : P c) :
    (FactoryBase.registerCreatorFunc reg id c).2.AllCreators P := by
  by_cases hid : id ∈ reg.keys
  · rw [FactoryBase.registerCreatorFunc_of_mem reg id c hid]; exact h
  · rw [FactoryBase.registerCreatorFunc_of_not_mem reg id c hid]
    exact registryMapType.allCreators_assign h id hc

theorem FactoryBase.allCreators_removeCreatorFunc {P : F → Prop}
    {reg : registryMapType K F} (h : reg.AllCreators P) (id : K) :
    (FactoryBase.removeCreatorFunc reg id).2.AllCreators P := by
  by_cases hid : id ∈ reg.keys
  · rw [FactoryBase.removeCreatorFunc_of_mem reg id hid]
    exact registryMapType.allCreators_erase h id
  · rw [FactoryBase.removeCreatorFunc_of_not_mem reg id hid]; exact h

theorem BasicFactory.allCreators_runCalls (calls : List (BasicFactory.helperCall K β))
    (reg : registryMapType K (Unit → Option β))
    (h : reg.AllCreators (fun f => f () ≠ none)) :
    (BasicFactory.runCalls calls reg).AllCreators (fun f => f () ≠ none) := by
  induction calls generalizing reg with
  | nil => exact h
  | cons call rest ih =>
    apply ih
    cases call with
    | registerObject object =>
      exact FactoryBase.allCreators_registerCreatorFunc h _ (by simp)
    | registerObject_id construct id =>
      exact FactoryBase.allCreators_registerCreatorFunc h _ (by simp)
    | removeCreatorFunc id => exact FactoryBase.allCreators_removeCreatorFunc h id
    | clearRegistry => exact registryMapType.allCreators_empty _

theorem SingleArgumentFactory.allCreators_runCalls1
    (calls : List (SingleArgumentFactory.helperCall K α β))
    (reg : registryMapType K (α → Option β))
    (h : reg.AllCreators (fun f => ∀ x, f x ≠ none)) :
    (SingleArgumentFactory.runCalls calls reg).AllCreators (fun f => ∀ x, f x ≠ none) := by
  induction calls generalizing reg with
  | nil => exact h
  | cons call rest ih =>
    apply ih
    cases call with
    | registerObjectConstructor object =>
      exact FactoryBase.allCreators_registerCreatorFunc h _ (by simp)
    | registerObjectConstructor_id construct id =>
      exact FactoryBase.allCreators_registerCreatorFunc h _ (by simp)
    | removeCreatorFunc id => exact FactoryBase.allCreators_removeCreatorFunc h id
    | clearRegistry => exact registryMapType.allCreators_empty _

theorem BasicFactory.create_ne_null_iff {reg : registryMapType K (Unit → Option β)}
    (h : reg.AllCreators (fun f => f () ≠ none)) (id : K) :
    (BasicFactory.create reg id).1 ≠ none ↔ id ∈ reg.keys := by
  by_cases hid : id ∈ reg.keys
  · obtain ⟨f, hf⟩ := (reg.find_isSome_iff id).2 hid
    rw [BasicFactory.create_eq_call reg id f hf]
    exact ⟨fun _ => hid, fun _ => h (id, f) ((reg.find_eq_some_iff id f).1 hf)⟩
  · rw [BasicFactory.create_eq_null reg id ((reg.find_eq_none_iff id).2 hid)]
    exact ⟨fun hc => absurd rfl hc, fun hc => absurd hc hid⟩

theorem SingleArgumentFactory.create1_ne_null_iff {reg : registryMapType K (α → Option β)}
    (h : reg.AllCreators (fun f => ∀ x, f x ≠ none)) (id : K) (x : α) :
    (SingleArgumentFactory.create reg id x).1 ≠ none ↔ id ∈ reg.keys := by
  by_cases hid : id ∈ reg.keys
  · obtain ⟨f, hf⟩ := (reg.find_isSome_iff id).2 hid
    rw [SingleArgumentFactory.create1_eq_call reg id x f hf]
    exact ⟨fun _ => hid, fun _ => h (id, f) ((reg.find_eq_some_iff id f).1 hf) x⟩
  · rw [SingleArgumentFactory.create1_eq_null reg id x ((reg.find_eq_none_iff id).2 hid)]
    exact ⟨fun hc => absurd rfl hc, fun hc => absurd hc hid⟩

end FactoryLemmas

/-! ## Sample registries used to instantiate the general statements -/

/-- A zero-argument registry holding `testBaseClass` under 0 and `testDerivB`
under 2, built by two `registerObject` calls on the empty registry. -/
def sampleBasic : registryMapType Int (Unit → Option basicFactoryTests.testObject) :=
  (BasicFactory.registerObject basicFactoryTests.testDerivB
    (BasicFactory.registerObject basicFactoryTests.testBaseClass registryMapType.empty).2).2

/-- A one-argument registry over `Int` holding under 0 a creator that builds a
`testDerivA` with `a` set to the argument, and under 2 a creator that always
returns null. -/
def sampleSingle : registryMapType Int (Int → Option basicFactoryTests.testObject) :=
  (FactoryBase.registerCreatorFunc
    (SingleArgumentFactory.registerObjectConstructor_id
      (fun a => (⟨.testDerivA, a⟩ : basicFactoryTests.testObject)) registryMapType.empty 0).2
    2 (fun _ => none)).2

/-- The registry of the zero-argument scenario: on the empty registry,
`registerObject<testDerivA>(1)` and then `registerObject<testDerivB>(2)`. -/
def scenarioAB : registryMapType Int (Unit → Option basicFactoryTests.testObject) :=
  (BasicFactory.registerObject_id basicFactoryTests.testDerivB.construct
    (BasicFactory.registerObject_id basicFactoryTests.testDerivA.construct
      registryMapType.empty 1).2 2).2

/-- The registry of the one-argument scenario: on the empty registry,
`registerObjectConstructor<testDerivA>(1)`. -/
def scenarioSingleA :
    registryMapType Int (Int → Option singleArgumentFactoryTests.testObject) :=
  (SingleArgumentFactory.registerObjectConstructor_id
    singleArgumentFactoryTests.testDerivA.construct registryMapType.empty 1).2

/-- Static initialization of the zero-argument auto-registration test program
when the marker of `testDerivA` is initialized before that of `testDerivB`:
the two markers and the registry of `testBasicAutoregFactory`. -/
def autoRegisteredAB :
    List Bool × registryMapType Int (Unit → Option autoRegistrationTests.testObject) :=
  autoRegister.staticInitialization
    [autoRegistrationTests.testDerivA, autoRegistrationTests.testDerivB] registryMapType.empty

/-- The same program when the marker of `testDerivB` is initialized first. -/
def autoRegisteredBA :
    List Bool × registryMapType Int (Unit → Option autoRegistrationTests.testObject) :=
  autoRegister.staticInitialization
    [autoRegistrationTests.testDerivB, autoRegistrationTests.testDerivA] registryMapType.empty

/-- Static initialization of the one-argument auto-registration test program,
`testDerivSingleArgA` first: the markers and the registry of
`testSingleArgAutoregFactory`. -/
def autoRegisteredSingleAB :
    List Bool × registryMapType Int (Int → Option autoRegistrationTests.testObject1) :=
  autoRegister.staticInitialization
    [autoRegistrationTests.testDerivSingleArgA, autoRegistrationTests.testDerivSingleArgB]
    registryMapType.empty

/-- The same program when the marker of `testDerivSingleArgB` is initialized
first. -/
def autoRegisteredSingleBA :
    List Bool × registryMapType Int (Int → Option autoRegistrationTests.testObject1) :=
  autoRegister.staticInitialization
    [autoRegistrationTests.testDerivSingleArgB, autoRegistrationTests.testDerivSingleArgA]
    registryMapType.empty

/-- A zero-argument auto-registering class that declares id 1, the id of
`testDerivA`, and whose `create` builds a `testDerivB`. -/
def collidingBasic : autoRegisterClass Int (Unit → Option autoRegistrationTests.testObject) :=
  { getFactoryID := fun _ => 1, create := fun _ => some ⟨.testDerivB, 0⟩ }

/-- A one-argument auto-registering class that declares id 1, the id of
`testDerivSingleArgA`, and whose `create` builds a `testDerivSingleArgB`. -/
def collidingSingle : autoRegisterClass Int (Int → Option autoRegistrationTests.testObject1) :=
  { getFactoryID := fun _ => 1, create := fun a => some ⟨.testDerivSingleArgB, a⟩ }

/-- The registries of a program whose zero-argument factory holds
`sampleBasic` and whose one-argument factory holds `sampleSingle`. -/
def sampleRegistries : typeRegistries Int Int basicFactoryTests.testObject
  | .zeroArgument => sampleBasic
  | .singleArgument => sampleSingle

/-- A sequence of helper calls on the zero-argument test factory: register
`testBaseClass`, `testDerivA` and `testDerivB` under their own ids, remove id
0, clear, register `testDerivB` under id 5 and `testDerivA` under its own id,
remove id 5. -/
def sampleCalls : List (BasicFactory.helperCall Int basicFactoryTests.testObject) :=
  [.registerObject basicFactoryTests.testBaseClass,
    .registerObject basicFactoryTests.testDerivA,
    .registerObject basicFactoryTests.testDerivB,
    .removeCreatorFunc 0,
    .clearRegistry,
    .registerObject_id basicFactoryTests.testDerivB.construct 5,
    .registerObject basicFactoryTests.testDerivA,
    .removeCreatorFunc 5]

/-- Three creator functions of a sample program, as function pointers. -/
inductive samplePointer where
  | plain
  | registering
  | clearing
  deriving DecidableEq, Repr

/-- What calling each sample creator function does: `plain` only constructs a
`testDerivA`; `registering` calls `registerCreatorFunc(9, plain)` on its own
factory and constructs a `testBaseClass`; `clearing` calls `clearRegistry()` on
its own factory and constructs a `testDerivB`. -/
def sampleCall : samplePointer → registryMapType Int samplePointer →
    Option basicFactoryTests.testObject × registryMapType Int samplePointer
  | .plain, reg => (some ⟨.testDerivA, 0⟩, reg)
  | .registering, reg =>
      (some ⟨.testBaseClass, 0⟩, (FactoryBase.registerCreatorFunc reg 9 .plain).2)
  | .clearing, reg => (some ⟨.testDerivB, 0⟩, FactoryBase.clearRegistry reg)

/-- The one-argument versions of the sample creator functions; the argument
becomes the `a` of the constructed object. -/
def sampleCall1 : samplePointer → Int → registryMapType Int samplePointer →
    Option basicFactoryTests.testObject × registryMapType Int samplePointer
  | .plain, a, reg => (some ⟨.testDerivA, a⟩, reg)
  | .registering, a, reg =>
      (some ⟨.testBaseClass, a⟩, (FactoryBase.registerCreatorFunc reg 9 .plain).2)
  | .clearing, a, reg => (some ⟨.testDerivB, a⟩, FactoryBase.clearRegistry reg)

/-- A registry holding `registering` under 0 and `clearing` under 1, built by
two `registerCreatorFunc` calls on the empty registry. -/
def samplePointers : registryMapType Int samplePointer :=
  (FactoryBase.registerCreatorFunc
    (FactoryBase.registerCreatorFunc registryMapType.empty 0 samplePointer.registering).2
    1 samplePointer.clearing).2

/-! ## Registration -/

section Claims

open FactoryBase

variable {K : Type u} {F : Type v} {α : Type w} {β : Type v} [LinearOrder K]

/-- C1: when `id` is not a key of the registry, `registerCreatorFunc(id, c)`
returns true and the entry found under `id` afterwards is `c`, so that
`BasicFactory::create(id)` returns `c()` and
`SingleArgumentFactory::create(id, x)` returns `c(x)`. -/
theorem registerCreatorFunc_fresh (id : K)
    (regB : registryMapType K (Unit → Option β)) (cB : Unit → Option β)
    (regS : registryMapType K (α → Option β)) (cS : α → Option β) (x : α)
    (hB : id ∉ regB.keys) (hS : id ∉ regS.keys) :
    ((registerCreatorFunc regB id cB).1 = true ∧
      (registerCreatorFunc regB id cB).2.find id = some cB ∧
      (BasicFactory.create (registerCreatorFunc regB id cB).2 id).1 = cB ()) ∧
    ((registerCreatorFunc regS id cS).1 = true ∧
      (registerCreatorFunc regS id cS).2.find id = some cS ∧
      (SingleArgumentFactory.create (registerCreatorFunc regS id cS).2 id x).1 = cS x) := by
  rw [registerCreatorFunc_of_not_mem regB id cB hB,
    registerCreatorFunc_of_not_mem regS id cS hS]
  have fB := regB.find_assign_self id cB
  have fS := regS.find_assign_self id cS
  refine ⟨⟨rfl, fB, ?_⟩, ⟨rfl, fS, ?_⟩⟩
  · rw [BasicFactory.create_eq_call _ id cB fB]
  · rw [SingleArgumentFactory.create1_eq_call _ id x cS fS]

/-- Instance of C1: id 1 is new to both sample registries; registering a
creator under it makes `create` return that creator's result. -/
theorem registerCreatorFunc_fresh_witness :
    (1 : Int) ∉ sampleBasic.keys ∧ (1 : Int) ∉ sampleSingle.keys ∧
    (BasicFactory.create
      (registerCreatorFunc sampleBasic 1 (fun _ => some ⟨.testDerivA, 0⟩)).2 1).1
      = some ⟨.testDerivA, 0⟩ ∧
    (SingleArgumentFactory.create
      (registerCreatorFunc sampleSingle 1 (fun a => some ⟨.testDerivB, a⟩)).2 1 7).1
      = some ⟨.testDerivB, 7⟩ :=
  have h := registerCreatorFunc_fresh (1 : Int) sampleBasic (fun _ => some ⟨.testDerivA, 0⟩)
    sampleSingle (fun a => some ⟨.testDerivB, a⟩) 7 (by decide) (by decide)
  ⟨by decide, by decide, h.1.2.2, h.2.2.2⟩

/-- C2: when `id` is already a key of the registry, `registerCreatorFunc(id, c2)`
returns false and the registry afterwards is the registry before; in
particular the entry under `id` is still the creator function stored first. -/
theorem registerCreatorFunc_duplicate (reg : registryMapType K F) (id : K) (c2 : F)
    (h : id ∈ reg.keys) :
    registerCreatorFunc reg id c2 = (false, reg) ∧
    ∃ c1, (id, c1) ∈ reg.entries ∧ reg.find id = some c1 ∧
      (registerCreatorFunc reg id c2).2.find id = some c1 := by
  have hreg := registerCreatorFunc_of_mem reg id c2 h
  obtain ⟨c1, hc1⟩ := (reg.find_isSome_iff id).2 h
  refine ⟨hreg, c1, (reg.find_eq_some_iff id c1).1 hc1, hc1, ?_⟩
  rw [hreg]
  exact hc1

/-- Instance of C2: id 2 is taken in the sample registry; a second
registration under it is refused and changes nothing. -/
theorem registerCreatorFunc_duplicate_witness :
    (2 : Int) ∈ sampleBasic.keys ∧
    registerCreatorFunc sampleBasic 2 (fun _ => none) = (false, sampleBasic) :=
  ⟨by decide, (registerCreatorFunc_duplicate sampleBasic 2 (fun _ => none) (by decide)).1⟩

/-! ## Removal -/

/-- C3: `removeCreatorFunc(id)` returns true exactly when `id` is a key
beforehand; when it returns true `id` is no key afterwards and `create(id)`
returns null; when it returns false the registry is unchanged.  Stated for the
registry of a zero-argument and of a one-argument factory. -/
theorem removeCreatorFunc_result (id : K)
    (regB : registryMapType K (Unit → Option β))
    (regS : registryMapType K (α → Option β)) (x : α) :
    (((removeCreatorFunc regB id).1 = true ↔ id ∈ regB.keys) ∧
      ((removeCreatorFunc regB id).1 = true →
        id ∉ (removeCreatorFunc regB id).2.keys ∧
        (BasicFactory.create (removeCreatorFunc regB id).2 id).1 = none) ∧
      ((removeCreatorFunc regB id).1 = false → (removeCreatorFunc regB id).2 = regB)) ∧
    (((removeCreatorFunc regS id).1 = true ↔ id ∈ regS.keys) ∧
      ((removeCreatorFunc regS id).1 = true →
        id ∉ (removeCreatorFunc regS id).2.keys ∧
        (SingleArgumentFactory.create (removeCreatorFunc regS id).2 id x).1 = none) ∧
      ((removeCreatorFunc regS id).1 = false → (removeCreatorFunc regS id).2 = regS)) := by
  constructor
  · by_cases h : id ∈ regB.keys
    · rw [removeCreatorFunc_of_mem regB id h]
      have hnone := regB.find_erase_self id
      refine ⟨by simp [h], fun _ => ⟨((regB.erase id).find_eq_none_iff id).1 hnone, ?_⟩,
        fun hf => absurd hf (by simp)⟩
      rw [BasicFactory.create_eq_null _ id hnone]
    · rw [removeCreatorFunc_of_not_mem regB id h]
      exact ⟨by simp [h], fun hf => absurd hf (by simp), fun _ => rfl⟩
  · by_cases h : id ∈ regS.keys
    · rw [removeCreatorFunc_of_mem regS id h]
      have hnone := regS.find_erase_self id
      refine ⟨by simp [h], fun _ => ⟨((regS.erase id).find_eq_none_iff id).1 hnone, ?_⟩,
        fun hf => absurd hf (by simp)⟩
      rw [SingleArgumentFactory.create1_eq_null _ id x hnone]
    · rw [removeCreatorFunc_of_not_mem regS id h]
      exact ⟨by simp [h], fun hf => absurd hf (by simp), fun _ => rfl⟩

/-- Instance of C3: removing the present id 2 from the sample registry succeeds
and leaves only id 0; removing the absent id 1 fails. -/
theorem removeCreatorFunc_result_witness :
    ((removeCreatorFunc sampleBasic 2).1 = true ∧
      (removeCreatorFunc sampleBasic 2).2.keys = [0] ∧
      (BasicFactory.create (removeCreatorFunc sampleBasic 2).2 2).1 = none) ∧
    (removeCreatorFunc sampleSingle 1).2 = sampleSingle :=
  have h2 := removeCreatorFunc_result (2 : Int) sampleBasic sampleSingle (7 : Int)
  have h1 := removeCreatorFunc_result (1 : Int) sampleBasic sampleSingle (7 : Int)
  ⟨⟨h2.1.1.2 (by decide), by decide, (h2.1.2.1 (h2.1.1.2 (by decide))).2⟩,
    h1.2.2.2 (by decide)⟩

/-- C5: after `clearRegistry()` no identifier is a key: for every `id`,
`create(id)` returns null and `removeCreatorFunc(id)` returns false, in the
zero-argument and in the one-argument factory. -/
theorem clearRegistry_all_absent (id : K)
    (regB : registryMapType K (Unit → Option β))
    (regS : registryMapType K (α → Option β)) (x : α) :
    (id ∉ (clearRegistry regB).keys ∧
      (BasicFactory.create (clearRegistry regB) id).1 = none ∧
      (removeCreatorFunc (clearRegistry regB) id).1 = false) ∧
    (id ∉ (clearRegistry regS).keys ∧
      (SingleArgumentFactory.create (clearRegistry regS) id x).1 = none ∧
      (removeCreatorFunc (clearRegistry regS) id).1 = false) := by
  have kB : id ∉ (clearRegistry regB).keys := by
    simp [clearRegistry, registryMapType.clear, registryMapType.keys]
  have kS : id ∉ (clearRegistry regS).keys := by
    simp [clearRegistry, registryMapType.clear, registryMapType.keys]
  refine ⟨⟨kB, ?_, ?_⟩, ⟨kS, ?_, ?_⟩⟩
  · rw [BasicFactory.create_eq_null _ id ((registryMapType.find_eq_none_iff _ id).2 kB)]
  · rw [removeCreatorFunc_of_not_mem _ id kB]
  · rw [SingleArgumentFactory.create1_eq_null _ id x
      ((registryMapType.find_eq_none_iff _ id).2 kS)]
  · rw [removeCreatorFunc_of_not_mem _ id kS]

/-- C6: `clearRegistry` is idempotent: clearing twice gives the registry that
clearing once gives, and clearing the empty registry gives the empty registry. -/
theorem clearRegistry_idempotent (reg : registryMapType K F) :
    clearRegistry (clearRegistry reg) = clearRegistry reg ∧
    clearRegistry (registryMapType.empty : registryMapType K F) = registryMapType.empty ∧
    clearRegistry reg = registryMapType.empty :=
  ⟨rfl, rfl, rfl⟩

/-! ## Lookup -/

/-- C7: `BasicFactory::create(id)` returns the result of calling the creator
function stored under `id` when `id` is a key (there is exactly one such
entry), and null when `id` is no key; being total, it has a result for every
registry and identifier. -/
theorem BasicFactory_create_result (reg : registryMapType K (Unit → Option β)) (id : K) :
    (id ∈ reg.keys → ∃ f, (id, f) ∈ reg.entries ∧ (BasicFactory.create reg id).1 = f ()) ∧
    (∀ f, (id, f) ∈ reg.entries → (BasicFactory.create reg id).1 = f ()) ∧
    (id ∉ reg.keys → (BasicFactory.create reg id).1 = none) := by
  refine ⟨fun h => ?_, fun f hf => ?_, fun h => ?_⟩
  · obtain ⟨f, hf⟩ := (reg.find_isSome_iff id).2 h
    exact ⟨f, (reg.find_eq_some_iff id f).1 hf, by rw [BasicFactory.create_eq_call _ id f hf]⟩
  · rw [BasicFactory.create_eq_call _ id f ((reg.find_eq_some_iff id f).2 hf)]
  · rw [BasicFactory.create_eq_null _ id ((reg.find_eq_none_iff id).2 h)]

/-- Instance of C7: in the sample registry id 2 constructs a `testDerivB` and
the unregistered id 1 gives null. -/
theorem BasicFactory_create_result_witness :
    (∃ f, ((2 : Int), f) ∈ sampleBasic.entries ∧ (BasicFactory.create sampleBasic 2).1 = f ()) ∧
    (BasicFactory.create sampleBasic 2).1 = some ⟨.testDerivB, 0⟩ ∧
    (BasicFactory.create sampleBasic 1).1 = none :=
  ⟨(BasicFactory_create_result sampleBasic (2 : Int)).1 (by decide), by decide,
    (BasicFactory_create_result sampleBasic (1 : Int)).2.2 (by decide)⟩

/-- C8: `SingleArgumentFactory::create(id, x)` returns `c(x)` for the creator
function `c` stored under `id` when `id` is a key (there is exactly one such
entry), and null when `id` is no key. -/
theorem SingleArgumentFactory_create_result (reg : registryMapType K (α → Option β))
    (id : K) (x : α) :
    (id ∈ reg.keys →
      ∃ c, (id, c) ∈ reg.entries ∧ (SingleArgumentFactory.create reg id x).1 = c x) ∧
    (∀ c, (id, c) ∈ reg.entries → (SingleArgumentFactory.create reg id x).1 = c x) ∧
    (id ∉ reg.keys → (SingleArgumentFactory.create reg id x).1 = none) := by
  refine ⟨fun h => ?_, fun c hc => ?_, fun h => ?_⟩
  · obtain ⟨c, hc⟩ := (reg.find_isSome_iff id).2 h
    exact ⟨c, (reg.find_eq_some_iff id c).1 hc,
      by rw [SingleArgumentFactory.create1_eq_call _ id x c hc]⟩
  · rw [SingleArgumentFactory.create1_eq_call _ id x c ((reg.find_eq_some_iff id c).2 hc)]
  · rw [SingleArgumentFactory.create1_eq_null _ id x ((reg.find_eq_none_iff id).2 h)]

/-- Instance of C8: in the sample registry id 0 builds a `testDerivA` whose `a`
is the argument 7, and the unregistered id 1 gives null. -/
theorem SingleArgumentFactory_create_result_witness :
    (∃ c, ((0 : Int), c) ∈ sampleSingle.entries ∧
      (SingleArgumentFactory.create sampleSingle 0 7).1 = c 7) ∧
    (SingleArgumentFactory.create sampleSingle 0 7).1 = some ⟨.testDerivA, 7⟩ ∧
    (SingleArgumentFactory.create sampleSingle 1 7).1 = none :=
  ⟨(SingleArgumentFactory_create_result sampleSingle (0 : Int) (7 : Int)).1 (by decide),
    by decide,
    (SingleArgumentFactory_create_result sampleSingle (1 : Int) (7 : Int)).2.2 (by decide)⟩

/-! ## Registration helpers -/

/-- C9: registering a type without an identifier is registering it under the
identifier it declares: `registerObject<T>()` gives the boolean and the
registry that `registerObject<T>(T::getFactoryID())` gives, and
`registerObjectConstructor<T>()` those that
`registerObjectConstructor<T>(T::getFactoryID())` gives. -/
theorem registerObject_default_id (T : objectClass K β) (T1 : objectClass1 K α β)
    (regB : registryMapType K (Unit → Option β))
    (regS : registryMapType K (α → Option β)) :
    BasicFactory.registerObject T regB
      = BasicFactory.registerObject_id T.construct regB (T.getFactoryID ()) ∧
    SingleArgumentFactory.registerObjectConstructor T1 regS
      = SingleArgumentFactory.registerObjectConstructor_id T1.construct regS
          (T1.getFactoryID ()) :=
  ⟨rfl, rfl⟩

/-- C10: from the empty registry, `registerObject` of `testDerivA` under id 1
and of `testDerivB` under id 2 both return true (with or without the explicit
id); then `create(1)` is a non-null object whose `a` is 2 after one `incA`,
`create(2)` a non-null object whose `a` is 3 after one `incA`, and `create(0)`
is null. -/
theorem createObjects_scenario :
    (BasicFactory.registerObject_id basicFactoryTests.testDerivA.construct
      (registryMapType.empty : registryMapType Int _) 1).1 = true ∧
    (BasicFactory.registerObject_id basicFactoryTests.testDerivB.construct
      (BasicFactory.registerObject_id basicFactoryTests.testDerivA.construct
        (registryMapType.empty : registryMapType Int _) 1).2 2).1 = true ∧
    (BasicFactory.registerObject basicFactoryTests.testDerivB
      (BasicFactory.registerObject basicFactoryTests.testDerivA
        registryMapType.empty).2).2 = scenarioAB ∧
    scenarioAB.keys = [1, 2] ∧
    (BasicFactory.create scenarioAB 1).1 = some ⟨.testDerivA, 0⟩ ∧
    (BasicFactory.create scenarioAB 1).1.map (fun o => o.incA.a) = some 2 ∧
    (BasicFactory.create scenarioAB 2).1 = some ⟨.testDerivB, 0⟩ ∧
    (BasicFactory.create scenarioAB 2).1.map (fun o => o.incA.a) = some 3 ∧
    (BasicFactory.create scenarioAB 0).1 = none :=
  ⟨by decide, by decide, rfl, by decide, by decide, by decide, by decide, by decide, by decide⟩

/-! ## Scenarios with constructor arguments and with auto-registration -/

/-- C11: a type registered with `registerObjectConstructor` under a free `id`
is constructed from the argument: the registration returns true and
`create(id, x)` is a non-null instance built by the constructor from `x`, for
every `x`.  With `testDerivA` under id 1 the instance has `a = x`, so that
`create(1, 2)` has `a = 4` after one `incA` and `create(1, 3)` has `a = 5`. -/
theorem registerObjectConstructor_scenario :
    (∀ (reg : registryMapType K (α → Option β)) (T : objectClass1 K α β) (id : K) (x : α),
      id ∉ reg.keys →
      (SingleArgumentFactory.registerObjectConstructor_id T.construct reg id).1 = true ∧
      (SingleArgumentFactory.create
        (SingleArgumentFactory.registerObjectConstructor_id T.construct reg id).2 id x).1
        = some (T.construct x)) ∧
    (SingleArgumentFactory.registerObjectConstructor_id
      singleArgumentFactoryTests.testDerivA.construct
      (registryMapType.empty : registryMapType Int _) 1).1 = true ∧
    (∀ x : Int, (SingleArgumentFactory.create scenarioSingleA 1 x).1
      = some ⟨.testDerivA, x⟩) ∧
    (SingleArgumentFactory.create scenarioSingleA 1 2).1.map (fun o => o.incA.a) = some 4 ∧
    (SingleArgumentFactory.create scenarioSingleA 1 3).1.map (fun o => o.incA.a) = some 5 := by
  refine ⟨?_, by decide, fun x => rfl, by decide, by decide⟩
  intro reg T id x h
  unfold SingleArgumentFactory.registerObjectConstructor_id
  rw [registerCreatorFunc_of_not_mem reg id _ h]
  refine ⟨rfl, ?_⟩
  rw [SingleArgumentFactory.create1_eq_call _ id x _ (reg.find_assign_self id _)]

/-- Instance of C11: id 1 is free in the sample one-argument registry;
`testDerivB` registered under it is built from the argument 5. -/
theorem registerObjectConstructor_scenario_witness :
    (1 : Int) ∉ sampleSingle.keys ∧
    (SingleArgumentFactory.create
      (SingleArgumentFactory.registerObjectConstructor_id
        (fun a => (⟨.testDerivB, a⟩ : basicFactoryTests.testObject)) sampleSingle 1).2 1 5).1
      = some ⟨.testDerivB, 5⟩ :=
  ⟨by decide,
    (registerObjectConstructor_scenario.1 sampleSingle
      ⟨fun _ => 1, fun a => (⟨.testDerivB, a⟩ : basicFactoryTests.testObject)⟩
      (1 : Int) (5 : Int) (by decide)).2⟩

/-- C12: from the empty registry, once the initializers of the markers of the
auto-registering `testDerivA` (id 1) and `testDerivB` (id 2) have run, in
either order and with no other registration, both markers are true,
`create(1)` is a non-null `testDerivA` whose `a` is 2 after one `incA`,
`create(2)` a non-null `testDerivB` whose `a` is 3 after one `incA`, and
`create(0)`, the id of the base class, is null.  The one-argument classes of
the same test file behave alike, with `a` starting at the argument. -/
theorem autoRegistration_scenario :
    (autoRegisteredAB.1 = [true, true] ∧ autoRegisteredBA.1 = [true, true] ∧
      autoRegisteredAB.2.keys = [1, 2] ∧ autoRegisteredBA.2.keys = [1, 2] ∧
      (BasicFactory.create autoRegisteredAB.2 1).1 = some ⟨.testDerivA, 0⟩ ∧
      (BasicFactory.create autoRegisteredBA.2 1).1 = some ⟨.testDerivA, 0⟩ ∧
      (BasicFactory.create autoRegisteredAB.2 1).1.map (fun o => o.incA.a) = some 2 ∧
      (BasicFactory.create autoRegisteredBA.2 1).1.map (fun o => o.incA.a) = some 2 ∧
      (BasicFactory.create autoRegisteredAB.2 2).1 = some ⟨.testDerivB, 0⟩ ∧
      (BasicFactory.create autoRegisteredBA.2 2).1 = some ⟨.testDerivB, 0⟩ ∧
      (BasicFactory.create autoRegisteredAB.2 2).1.map (fun o => o.incA.a) = some 3 ∧
      (BasicFactory.create autoRegisteredBA.2 2).1.map (fun o => o.incA.a) = some 3 ∧
      (BasicFactory.create autoRegisteredAB.2
        (autoRegistrationTests.testBaseAutoregClass_getFactoryID ())).1 = none ∧
      (BasicFactory.create autoRegisteredBA.2
        (autoRegistrationTests.testBaseAutoregClass_getFactoryID ())).1 = none) ∧
    (autoRegisteredSingleAB.1 = [true, true] ∧ autoRegisteredSingleBA.1 = [true, true] ∧
      (∀ x : Int, (SingleArgumentFactory.create autoRegisteredSingleAB.2 1 x).1
        = some ⟨.testDerivSingleArgA, x⟩) ∧
      (∀ x : Int, (SingleArgumentFactory.create autoRegisteredSingleBA.2 1 x).1
        = some ⟨.testDerivSingleArgA, x⟩) ∧
      (∀ x : Int, (SingleArgumentFactory.create autoRegisteredSingleAB.2 2 x).1
        = some ⟨.testDerivSingleArgB, x⟩) ∧
      (∀ x : Int, (SingleArgumentFactory.create autoRegisteredSingleBA.2 2 x).1
        = some ⟨.testDerivSingleArgB, x⟩) ∧
      (SingleArgumentFactory.create autoRegisteredSingleAB.2 1 2).1.map
        (fun o => o.incA.a) = some 4 ∧
      (SingleArgumentFactory.create autoRegisteredSingleBA.2 2 3).1.map
        (fun o => o.incA.a) = some 6 ∧
      (∀ x : Int, (SingleArgumentFactory.create autoRegisteredSingleAB.2 0 x).1 = none) ∧
      (∀ x : Int, (SingleArgumentFactory.create autoRegisteredSingleBA.2 0 x).1 = none)) :=
  ⟨⟨by decide, by decide, by decide, by decide, by decide, by decide, by decide, by decide,
      by decide, by decide, by decide, by decide, by decide, by decide⟩,
    ⟨by decide, by decide, fun _ => rfl, fun _ => rfl, fun _ => rfl, fun _ => rfl,
      by decide, by decide, fun _ => rfl, fun _ => rfl⟩⟩

/-! ## Identifier uniqueness, order of registration, collisions -/

/-- C13: the same type may be registered under two identifiers: for distinct
`i` and `j`, both free, `registerObject<T>(i)` and then `registerObject<T>(j)`
both return true, and afterwards `create(i)` and `create(j)` each return a
non-null default-constructed `T`. -/
theorem registerObject_same_type_twice (reg : registryMapType K (Unit → Option β))
    (construct : Unit → β) (i j : K) (hij : i ≠ j) (hi : i ∉ reg.keys) (hj : j ∉ reg.keys) :
    (BasicFactory.registerObject_id construct reg i).1 = true ∧
    (BasicFactory.registerObject_id construct
      (BasicFactory.registerObject_id construct reg i).2 j).1 = true ∧
    (BasicFactory.create (BasicFactory.registerObject_id construct
      (BasicFactory.registerObject_id construct reg i).2 j).2 i).1 = some (construct ()) ∧
    (BasicFactory.create (BasicFactory.registerObject_id construct
      (BasicFactory.registerObject_id construct reg i).2 j).2 j).1 = some (construct ()) := by
  unfold BasicFactory.registerObject_id
  rw [registerCreatorFunc_of_not_mem reg i _ hi]
  have hj2 : j ∉ (reg.assign i (fun _ => some (construct ()))).keys := by
    rw [← registryMapType.find_eq_none_iff, reg.find_assign_of_ne (Ne.symm hij)]
    exact (reg.find_eq_none_iff j).2 hj
  rw [registerCreatorFunc_of_not_mem _ j _ hj2]
  refine ⟨rfl, rfl, ?_, ?_⟩
  · have hfi : ((reg.assign i (fun _ => some (construct ()))).assign j
        (fun _ => some (construct ()))).find i = some (fun _ => some (construct ())) := by
      rw [registryMapType.find_assign_of_ne _ hij, reg.find_assign_self]
    rw [BasicFactory.create_eq_call _ i _ hfi]
  · rw [BasicFactory.create_eq_call _ j _ (registryMapType.find_assign_self _ j _)]

/-- Instance of C13: `testDerivA` registered under the free ids 1 and 3 of the
sample registry is constructed by both. -/
theorem registerObject_same_type_twice_witness :
    (1 : Int) ≠ 3 ∧ (1 : Int) ∉ sampleBasic.keys ∧ (3 : Int) ∉ sampleBasic.keys ∧
    (BasicFactory.create (BasicFactory.registerObject_id
      basicFactoryTests.testDerivA.construct (BasicFactory.registerObject_id
        basicFactoryTests.testDerivA.construct sampleBasic 1).2 3).2 1).1
      = some ⟨.testDerivA, 0⟩ ∧
    (BasicFactory.create (BasicFactory.registerObject_id
      basicFactoryTests.testDerivA.construct (BasicFactory.registerObject_id
        basicFactoryTests.testDerivA.construct sampleBasic 1).2 3).2 3).1
      = some ⟨.testDerivA, 0⟩ :=
  have h := registerObject_same_type_twice sampleBasic basicFactoryTests.testDerivA.construct
    (1 : Int) 3 (by decide) (by decide) (by decide)
  ⟨by decide, by decide, by decide, h.2.2.1, h.2.2.2⟩

/-- C14: for distinct identifiers the order of two registrations does not
matter: registering `(i, c1)` then `(j, c2)` returns for each identifier the
boolean that registering `(j, c2)` then `(i, c1)` returns for it, and both
orders leave the same registry, whatever the registry held before. -/
theorem registerCreatorFunc_order_irrelevant (reg : registryMapType K F) (i j : K)
    (c1 c2 : F) (hij : i ≠ j) :
    (registerCreatorFunc reg i c1).1
      = (registerCreatorFunc (registerCreatorFunc reg j c2).2 i c1).1 ∧
    (registerCreatorFunc (registerCreatorFunc reg i c1).2 j c2).1
      = (registerCreatorFunc reg j c2).1 ∧
    (registerCreatorFunc (registerCreatorFunc reg i c1).2 j c2).2
      = (registerCreatorFunc (registerCreatorFunc reg j c2).2 i c1).2 := by
  by_cases hi : i ∈ reg.keys <;> by_cases hj : j ∈ reg.keys
  · rw [registerCreatorFunc_of_mem reg i c1 hi, registerCreatorFunc_of_mem reg j c2 hj]
    dsimp only
    try rw [registerCreatorFunc_of_mem reg i c1 hi]
    try rw [registerCreatorFunc_of_mem reg j c2 hj]
    exact ⟨rfl, rfl, rfl⟩
  · have hi2 : i ∈ (reg.assign j c2).keys := (reg.mem_keys_assign_of_ne hij c2).2 hi
    rw [registerCreatorFunc_of_mem reg i c1 hi, registerCreatorFunc_of_not_mem reg j c2 hj]
    dsimp only
    try rw [registerCreatorFunc_of_not_mem reg j c2 hj]
    try rw [registerCreatorFunc_of_mem _ i c1 hi2]
    exact ⟨rfl, rfl, rfl⟩
  · have hj2 : j ∈ (reg.assign i c1).keys := (reg.mem_keys_assign_of_ne (Ne.symm hij) c1).2 hj
    rw [registerCreatorFunc_of_not_mem reg i c1 hi, registerCreatorFunc_of_mem reg j c2 hj]
    dsimp only
    try rw [registerCreatorFunc_of_mem _ j c2 hj2]
    try rw [registerCreatorFunc_of_not_mem reg i c1 hi]
    exact ⟨rfl, rfl, rfl⟩
  · have hi2 : i ∉ (reg.assign j c2).keys := fun h => hi ((reg.mem_keys_assign_of_ne hij c2).1 h)
    have hj2 : j ∉ (reg.assign i c1).keys :=
      fun h => hj ((reg.mem_keys_assign_of_ne (Ne.symm hij) c1).1 h)
    rw [registerCreatorFunc_of_not_mem reg i c1 hi, registerCreatorFunc_of_not_mem reg j c2 hj]
    dsimp only
    try rw [registerCreatorFunc_of_not_mem _ j c2 hj2]
    try rw [registerCreatorFunc_of_not_mem _ i c1 hi2]
    exact ⟨rfl, rfl, (reg.assign_comm hij c1 c2).symm⟩

/-- Instance of C14: on the sample registry, registering under the free id 3
and the taken id 0 gives true for 3 and false for 0 in both orders, and the
same keys. -/
theorem registerCreatorFunc_order_irrelevant_witness :
    (3 : Int) ≠ 0 ∧
    (registerCreatorFunc sampleBasic 3 (fun _ => none)).1 = true ∧
    (registerCreatorFunc (registerCreatorFunc sampleBasic 3 (fun _ => none)).2 0
      (fun _ => none)).1 = false ∧
    (registerCreatorFunc (registerCreatorFunc sampleBasic 3 (fun _ => none)).2 0
      (fun _ => none)).2
      = (registerCreatorFunc (registerCreatorFunc sampleBasic 0 (fun _ => none)).2 3
        (fun _ => none)).2 ∧
    (registerCreatorFunc (registerCreatorFunc sampleBasic 0 (fun _ => none)).2 3
      (fun _ => none)).2.keys = [0, 2, 3] :=
  ⟨by decide, by decide, by decide,
    (registerCreatorFunc_order_irrelevant sampleBasic (3 : Int) 0 (fun _ => none)
      (fun _ => none) (by decide)).2.2,
    by decide⟩

/-- C15: the marker `libFactory_bRegistered` of a class is the boolean that
`registerCreatorFunc(object::getFactoryID(), object::create)` returns on the
registry its initializer finds.  When two auto-registering classes declare the
same identifier and the registry starts empty, the marker of the one
initialized first is true, the marker of the other is false, and `create` of
that identifier calls the `create` of the first. -/
theorem autoRegister_collision {γ : Type v} (T1 T2 : autoRegisterClass K (Unit → Option β))
    (S1 S2 : autoRegisterClass K (α → Option γ)) (x : α)
    (hT : T1.getFactoryID () = T2.getFactoryID ())
    (hS : S1.getFactoryID () = S2.getFactoryID ()) :
    ((∀ reg, autoRegister.libFactory_bRegistered T1 reg
        = registerCreatorFunc reg (T1.getFactoryID ()) T1.create) ∧
      (autoRegister.staticInitialization [T1, T2] registryMapType.empty).1 = [true, false] ∧
      (BasicFactory.create
        (autoRegister.staticInitialization [T1, T2] registryMapType.empty).2
        (T1.getFactoryID ())).1 = T1.create ()) ∧
    ((∀ reg, autoRegister.libFactory_bRegistered S1 reg
        = registerCreatorFunc reg (S1.getFactoryID ()) S1.create) ∧
      (autoRegister.staticInitialization [S1, S2] registryMapType.empty).1 = [true, false] ∧
      (SingleArgumentFactory.create
        (autoRegister.staticInitialization [S1, S2] registryMapType.empty).2
        (S1.getFactoryID ()) x).1 = S1.create x) := by
  have initT : autoRegister.staticInitialization [T1, T2] registryMapType.empty
      = ([true, false], registryMapType.empty.assign (T1.getFactoryID ()) T1.create) := by
    simp only [autoRegister.staticInitialization, autoRegister.libFactory_bRegistered,
      autoRegister._registerWithFactory_]
    rw [registerCreatorFunc_of_not_mem _ _ _ (registryMapType.not_mem_keys_empty _), ← hT,
      registerCreatorFunc_of_mem _ _ _ (registryMapType.mem_keys_assign_self _ _ _)]
  have initS : autoRegister.staticInitialization [S1, S2] registryMapType.empty
      = ([true, false], registryMapType.empty.assign (S1.getFactoryID ()) S1.create) := by
    simp only [autoRegister.staticInitialization, autoRegister.libFactory_bRegistered,
      autoRegister._registerWithFactory_]
    rw [registerCreatorFunc_of_not_mem _ _ _ (registryMapType.not_mem_keys_empty _), ← hS,
      registerCreatorFunc_of_mem _ _ _ (registryMapType.mem_keys_assign_self _ _ _)]
  rw [initT, initS]
  refine ⟨⟨fun _ => rfl, rfl, ?_⟩, ⟨fun _ => rfl, rfl, ?_⟩⟩
  · rw [BasicFactory.create_eq_call _ _ _ (registryMapType.find_assign_self _ _ _)]
  · rw [SingleArgumentFactory.create1_eq_call _ _ x _ (registryMapType.find_assign_self _ _ _)]

/-- Instance of C15: a second class declaring id 1 like `testDerivA` loses to
it when `testDerivA` is initialized first, and `create(1)` builds a
`testDerivA`. -/
theorem autoRegister_collision_witness :
    autoRegistrationTests.testDerivA.getFactoryID () = collidingBasic.getFactoryID () ∧
    (autoRegister.staticInitialization
      [autoRegistrationTests.testDerivA, collidingBasic] registryMapType.empty).1
      = [true, false] ∧
    (BasicFactory.create (autoRegister.staticInitialization
      [autoRegistrationTests.testDerivA, collidingBasic] registryMapType.empty).2 1).1
      = some ⟨.testDerivA, 0⟩ ∧
    (SingleArgumentFactory.create (autoRegister.staticInitialization
      [autoRegistrationTests.testDerivSingleArgA, collidingSingle]
      registryMapType.empty).2 1 7).1 = some ⟨.testDerivSingleArgA, 7⟩ :=
  have h := autoRegister_collision autoRegistrationTests.testDerivA collidingBasic
    autoRegistrationTests.testDerivSingleArgA collidingSingle (7 : Int) rfl rfl
  ⟨rfl, h.1.2.1, h.1.2.2, h.2.2.2⟩

/-! ## Removal followed by registration, and the reverse -/

/-- C16: when `id` is registered with `c1`, then after `removeCreatorFunc(id)`
(which returns true) `registerCreatorFunc(id, c2)` returns true and the entry
under `id` is `c2`, so `create(id)` returns the result of `c2`; without the
removal the same call returns false and the entry stays `c1`. -/
theorem registerCreatorFunc_after_remove (id : K)
    (regB : registryMapType K (Unit → Option β)) (b1 b2 : Unit → Option β)
    (regS : registryMapType K (α → Option β)) (s1 s2 : α → Option β) (x : α)
    (hB : regB.find id = some b1) (hS : regS.find id = some s1) :
    ((removeCreatorFunc regB id).1 = true ∧
      (registerCreatorFunc (removeCreatorFunc regB id).2 id b2).1 = true ∧
      (registerCreatorFunc (removeCreatorFunc regB id).2 id b2).2.find id = some b2 ∧
      (BasicFactory.create
        (registerCreatorFunc (removeCreatorFunc regB id).2 id b2).2 id).1 = b2 () ∧
      (registerCreatorFunc regB id b2).1 = false ∧
      (BasicFactory.create (registerCreatorFunc regB id b2).2 id).1 = b1 ()) ∧
    ((removeCreatorFunc regS id).1 = true ∧
      (registerCreatorFunc (removeCreatorFunc regS id).2 id s2).1 = true ∧
      (registerCreatorFunc (removeCreatorFunc regS id).2 id s2).2.find id = some s2 ∧
      (SingleArgumentFactory.create
        (registerCreatorFunc (removeCreatorFunc regS id).2 id s2).2 id x).1 = s2 x ∧
      (registerCreatorFunc regS id s2).1 = false ∧
      (SingleArgumentFactory.create (registerCreatorFunc regS id s2).2 id x).1 = s1 x) := by
  have mB : id ∈ regB.keys := (regB.find_isSome_iff id).1 ⟨b1, hB⟩
  have mS : id ∈ regS.keys := (regS.find_isSome_iff id).1 ⟨s1, hS⟩
  rw [removeCreatorFunc_of_mem regB id mB, removeCreatorFunc_of_mem regS id mS,
    registerCreatorFunc_of_mem regB id b2 mB, registerCreatorFunc_of_mem regS id s2 mS]
  dsimp only
  rw [registerCreatorFunc_of_not_mem _ id b2 (regB.not_mem_keys_erase_self id),
    registerCreatorFunc_of_not_mem _ id s2 (regS.not_mem_keys_erase_self id)]
  dsimp only
  rw [BasicFactory.create_eq_call _ id b2 (registryMapType.find_assign_self _ id b2),
    BasicFactory.create_eq_call _ id b1 hB,
    SingleArgumentFactory.create1_eq_call _ id x s2 (registryMapType.find_assign_self _ id s2),
    SingleArgumentFactory.create1_eq_call _ id x s1 hS]
  exact ⟨⟨rfl, rfl, registryMapType.find_assign_self _ id b2, rfl, rfl, rfl⟩,
    ⟨rfl, rfl, registryMapType.find_assign_self _ id s2, rfl, rfl, rfl⟩⟩

/-- Instance of C16: id 2 of the sample registry builds a `testDerivB`; after
its removal a creator of `testDerivA` can be registered under 2 and is then
the one called. -/
theorem registerCreatorFunc_after_remove_witness :
    (BasicFactory.create sampleBasic 2).1 = some ⟨.testDerivB, 0⟩ ∧
    (BasicFactory.create (registerCreatorFunc (removeCreatorFunc sampleBasic 2).2 2
      (fun _ => some ⟨.testDerivA, 0⟩)).2 2).1 = some ⟨.testDerivA, 0⟩ ∧
    (registerCreatorFunc sampleBasic 2 (fun _ => some ⟨.testDerivA, 0⟩)).1 = false :=
  have h := registerCreatorFunc_after_remove (2 : Int)
    sampleBasic (fun _ => some ⟨.testDerivB, 0⟩) (fun _ => some ⟨.testDerivA, 0⟩)
    sampleSingle (fun _ => none) (fun a => some ⟨.testDerivA, a⟩) (7 : Int) rfl rfl
  ⟨by decide, h.1.2.2.2.1, h.1.2.2.2.2.1⟩

/-- C17, as the code has it: `create` itself only looks the identifier up.
For a free `id` it returns null and leaves the registry as it was, so no entry
is added and `registerCreatorFunc(id, c)` still returns true afterwards.  For a
registered `id` the result and the registry afterwards are exactly those of
the call of the stored creator function on the registry as it was; the
registry is therefore unchanged whenever that call leaves it unchanged, as
every creator function that does not act on the registry does. -/
theorem create_registry_effect {P : Type v} {β : Type w}
    (callB : P → registryMapType K P → Option β × registryMapType K P)
    (callS : P → α → registryMapType K P → Option β × registryMapType K P)
    (reg : registryMapType K P) (id : K) (x : α) (c : P) :
    ((id ∉ reg.keys →
        BasicFactory.createWith callB reg id = (none, reg) ∧
        (registerCreatorFunc (BasicFactory.createWith callB reg id).2 id c).1 = true) ∧
      (∀ p, reg.find id = some p → BasicFactory.createWith callB reg id = callB p reg) ∧
      (∀ p, reg.find id = some p → (callB p reg).2 = reg →
        (BasicFactory.createWith callB reg id).2 = reg)) ∧
    ((id ∉ reg.keys →
        SingleArgumentFactory.createWith callS reg id x = (none, reg) ∧
        (registerCreatorFunc (SingleArgumentFactory.createWith callS reg id x).2 id c).1
          = true) ∧
      (∀ p, reg.find id = some p →
        SingleArgumentFactory.createWith callS reg id x = callS p x reg) ∧
      (∀ p, reg.find id = some p → (callS p x reg).2 = reg →
        (SingleArgumentFactory.createWith callS reg id x).2 = reg)) ∧
    (∀ regB : registryMapType K (Unit → Option β),
      BasicFactory.createWith (fun f r => (f (), r)) regB id = BasicFactory.create regB id ∧
      (BasicFactory.create regB id).2 = regB) ∧
    (∀ regS : registryMapType K (α → Option β),
      SingleArgumentFactory.createWith (fun f a r => (f a, r)) regS id x
        = SingleArgumentFactory.create regS id x ∧
      (SingleArgumentFactory.create regS id x).2 = regS) := by
  refine ⟨⟨fun h => ?_, fun p hp => ?_, fun p hp hc => ?_⟩,
    ⟨fun h => ?_, fun p hp => ?_, fun p hp hc => ?_⟩, fun regB => ?_, fun regS => ?_⟩
  · have e : BasicFactory.createWith callB reg id = (none, reg) := by
      unfold BasicFactory.createWith
      rw [(reg.find_eq_none_iff id).2 h]
    rw [e]
    exact ⟨rfl, by rw [registerCreatorFunc_of_not_mem reg id c h]⟩
  · unfold BasicFactory.createWith
    rw [hp]
  · unfold BasicFactory.createWith
    rw [hp]
    exact hc
  · have e : SingleArgumentFactory.createWith callS reg id x = (none, reg) := by
      unfold SingleArgumentFactory.createWith
      rw [(reg.find_eq_none_iff id).2 h]
    rw [e]
    exact ⟨rfl, by rw [registerCreatorFunc_of_not_mem reg id c h]⟩
  · unfold SingleArgumentFactory.createWith
    rw [hp]
  · unfold SingleArgumentFactory.createWith
    rw [hp]
    exact hc
  · unfold BasicFactory.createWith BasicFactory.create
    cases regB.find id <;> exact ⟨rfl, rfl⟩
  · unfold SingleArgumentFactory.createWith SingleArgumentFactory.create
    cases regS.find id <;> exact ⟨rfl, rfl⟩

/-- Instance of C17 as the code has it: looking up the free id 5 among the
sample function pointers gives null, leaves the keys 0 and 1, and 5 can still
be registered; looking up the free id 1 in the sample registry of the
zero-argument factory leaves it as it was. -/
theorem create_registry_effect_witness :
    (5 : Int) ∉ samplePointers.keys ∧
    BasicFactory.createWith sampleCall samplePointers 5 = (none, samplePointers) ∧
    samplePointers.keys = [0, 1] ∧
    (registerCreatorFunc (SingleArgumentFactory.createWith sampleCall1 samplePointers 5 7).2
      5 samplePointer.plain).1 = true ∧
    (BasicFactory.create sampleBasic 1).2 = sampleBasic :=
  have h := create_registry_effect sampleCall sampleCall1 samplePointers (5 : Int) (7 : Int)
    samplePointer.plain
  ⟨by decide, (h.1.1 (by decide)).1, by decide, (h.2.1.1 (by decide)).2,
    (h.2.2.1 sampleBasic).2⟩

/-- C17 as stated fails for a registered identifier whose creator function
acts on the registry: with `registering` under 0 and `clearing` under 1,
`create(0)` returns an object and leaves the keys 0, 1, 9, and `create(1)`
returns an object and leaves no key; the same for `create(0, 7)` and
`create(1, 7)` of the one-argument factory. -/
theorem create_read_only_counterexample :
    samplePointers.keys = [0, 1] ∧
    ((BasicFactory.createWith sampleCall samplePointers 0).1 = some ⟨.testBaseClass, 0⟩ ∧
      (BasicFactory.createWith sampleCall samplePointers 0).2.keys = [0, 1, 9] ∧
      (BasicFactory.createWith sampleCall samplePointers 0).2 ≠ samplePointers) ∧
    ((BasicFactory.createWith sampleCall samplePointers 1).1 = some ⟨.testDerivB, 0⟩ ∧
      (BasicFactory.createWith sampleCall samplePointers 1).2.keys = [] ∧
      (BasicFactory.createWith sampleCall samplePointers 1).2 ≠ samplePointers) ∧
    ((SingleArgumentFactory.createWith sampleCall1 samplePointers 0 7).1
        = some ⟨.testBaseClass, 7⟩ ∧
      (SingleArgumentFactory.createWith sampleCall1 samplePointers 0 7).2.keys = [0, 1, 9] ∧
      (SingleArgumentFactory.createWith sampleCall1 samplePointers 0 7).2 ≠ samplePointers) ∧
    ((SingleArgumentFactory.createWith sampleCall1 samplePointers 1 7).1
        = some ⟨.testDerivB, 7⟩ ∧
      (SingleArgumentFactory.createWith sampleCall1 samplePointers 1 7).2.keys = [] ∧
      (SingleArgumentFactory.createWith sampleCall1 samplePointers 1 7).2 ≠ samplePointers) :=
  ⟨by decide,
    ⟨by decide, by decide,
      fun h => absurd (congrArg registryMapType.keys h) (by decide)⟩,
    ⟨by decide, by decide,
      fun h => absurd (congrArg registryMapType.keys h) (by decide)⟩,
    ⟨by decide, by decide,
      fun h => absurd (congrArg registryMapType.keys h) (by decide)⟩,
    ⟨by decide, by decide,
      fun h => absurd (congrArg registryMapType.keys h) (by decide)⟩⟩

/-- C19: for a free `id`, `registerCreatorFunc(id, c)` followed by
`removeCreatorFunc(id)` returns true both times and leaves the registry it
started from. -/
theorem register_then_remove (reg : registryMapType K F) (id : K) (c : F)
    (h : id ∉ reg.keys) :
    (registerCreatorFunc reg id c).1 = true ∧
    (removeCreatorFunc (registerCreatorFunc reg id c).2 id).1 = true ∧
    (removeCreatorFunc (registerCreatorFunc reg id c).2 id).2 = reg := by
  rw [registerCreatorFunc_of_not_mem reg id c h]
  dsimp only
  rw [removeCreatorFunc_of_mem _ id (reg.mem_keys_assign_self id c)]
  exact ⟨rfl, rfl, reg.erase_assign id c h⟩

/-- Instance of C19: registering under the free id 1 of the sample registry,
between the keys 0 and 2, and removing it again gives back the sample
registry. -/
theorem register_then_remove_witness :
    (1 : Int) ∉ sampleBasic.keys ∧
    (registerCreatorFunc sampleBasic 1 (fun _ => none)).2.keys = [0, 1, 2] ∧
    (removeCreatorFunc (registerCreatorFunc sampleBasic 1 (fun _ => none)).2 1).2
      = sampleBasic :=
  ⟨by decide, by decide,
    (register_then_remove sampleBasic (1 : Int) (fun _ => none) (by decide)).2.2⟩

end Claims

/-! ## Isolation of the registries of the two factory shapes -/

section Isolation

variable {K : Type u} {α β : Type v} [LinearOrder K]

/-- C18: the zero-argument and the one-argument factory of one base class have
separate registries: `registerCreatorFunc`, `removeCreatorFunc` and
`clearRegistry` called on one of them act on its own registry as `FactoryBase`
says and leave the registry of the other unchanged; so an identifier free in
both can be registered in both, each call returning true. -/
theorem registries_isolated (regs : typeRegistries K α β) (id : K)
    (cB : Unit → Option β) (cS : α → Option β) :
    ((regs.registerCreatorFunc .zeroArgument id cB).2.getTypeRegistry .singleArgument
        = regs.getTypeRegistry .singleArgument ∧
      (regs.removeCreatorFunc .zeroArgument id).2.getTypeRegistry .singleArgument
        = regs.getTypeRegistry .singleArgument ∧
      (regs.clearRegistry .zeroArgument).getTypeRegistry .singleArgument
        = regs.getTypeRegistry .singleArgument) ∧
    ((regs.registerCreatorFunc .singleArgument id cS).2.getTypeRegistry .zeroArgument
        = regs.getTypeRegistry .zeroArgument ∧
      (regs.removeCreatorFunc .singleArgument id).2.getTypeRegistry .zeroArgument
        = regs.getTypeRegistry .zeroArgument ∧
      (regs.clearRegistry .singleArgument).getTypeRegistry .zeroArgument
        = regs.getTypeRegistry .zeroArgument) ∧
    ((regs.registerCreatorFunc .zeroArgument id cB).2.getTypeRegistry .zeroArgument
        = (FactoryBase.registerCreatorFunc (regs.getTypeRegistry .zeroArgument) id cB).2 ∧
      (regs.registerCreatorFunc .singleArgument id cS).2.getTypeRegistry .singleArgument
        = (FactoryBase.registerCreatorFunc (regs.getTypeRegistry .singleArgument) id cS).2) ∧
    (id ∉ (regs.getTypeRegistry .zeroArgument).keys →
      id ∉ (regs.getTypeRegistry .singleArgument).keys →
      (regs.registerCreatorFunc .zeroArgument id cB).1 = true ∧
      ((regs.registerCreatorFunc .zeroArgument id cB).2.registerCreatorFunc
        .singleArgument id cS).1 = true ∧
      (regs.registerCreatorFunc .singleArgument id cS).1 = true ∧
      ((regs.registerCreatorFunc .singleArgument id cS).2.registerCreatorFunc
        .zeroArgument id cB).1 = true) := by
  refine ⟨⟨?_, ?_, ?_⟩, ⟨?_, ?_, ?_⟩, ⟨?_, ?_⟩, ?_⟩
  · simp [typeRegistries.registerCreatorFunc, typeRegistries.getTypeRegistry,
      typeRegistries.setTypeRegistry]
  · simp [typeRegistries.removeCreatorFunc, typeRegistries.getTypeRegistry,
      typeRegistries.setTypeRegistry]
  · simp [typeRegistries.clearRegistry, typeRegistries.getTypeRegistry,
      typeRegistries.setTypeRegistry]
  · simp [typeRegistries.registerCreatorFunc, typeRegistries.getTypeRegistry,
      typeRegistries.setTypeRegistry]
  · simp [typeRegistries.removeCreatorFunc, typeRegistries.getTypeRegistry,
      typeRegistries.setTypeRegistry]
  · simp [typeRegistries.clearRegistry, typeRegistries.getTypeRegistry,
      typeRegistries.setTypeRegistry]
  · simp [typeRegistries.registerCreatorFunc, typeRegistries.getTypeRegistry,
      typeRegistries.setTypeRegistry]
  · simp [typeRegistries.registerCreatorFunc, typeRegistries.getTypeRegistry,
      typeRegistries.setTypeRegistry]
  · intro hB hS
    simp only [typeRegistries.getTypeRegistry] at hB hS
    simp only [typeRegistries.registerCreatorFunc, typeRegistries.getTypeRegistry,
      typeRegistries.setTypeRegistry]
    rw [Function.update_noteq (by decide), Function.update_noteq (by decide),
      FactoryBase.registerCreatorFunc_of_not_mem _ id cB hB,
      FactoryBase.registerCreatorFunc_of_not_mem _ id cS hS]
    exact ⟨rfl, rfl, rfl, rfl⟩

/-- Instance of C18: id 1 is free in both sample registries and is registered
in both; registering it in the zero-argument factory leaves the one-argument
registry with the keys 0 and 2. -/
theorem registries_isolated_witness :
    ((sampleRegistries.registerCreatorFunc .zeroArgument 1
        (fun _ => none)).2.getTypeRegistry .singleArgument).keys = [0, 2] ∧
    (sampleRegistries.registerCreatorFunc .zeroArgument 1 (fun _ => none)).1 = true ∧
    ((sampleRegistries.registerCreatorFunc .zeroArgument 1
        (fun _ => none)).2.registerCreatorFunc .singleArgument 1 (fun _ => none)).1 = true :=
  have h := registries_isolated sampleRegistries (1 : Int) (fun _ => none) (fun _ => none)
  have h1 := h.2.2.2 (by decide) (by decide)
  ⟨by rw [h.1.1]; decide, h1.1, h1.2.1⟩

end Isolation

/-! ## Registered means constructible, for registries filled by the helpers -/

section Helpers

open FactoryBase

variable {K : Type u} {α : Type w} {β : Type v} [LinearOrder K]

/-- C20: for a registry that starts empty and is changed only by
`registerObject` / `registerObjectConstructor` (with or without an id),
`removeCreatorFunc` and `clearRegistry`, in any sequence, `create` returns a
non-null instance exactly when the identifier is a key of the registry.  A
registry filled through `registerCreatorFunc` need not be so: a creator
function that returns null makes `create` return null for a registered
identifier. -/
theorem create_non_null_iff_registered (callsB : List (BasicFactory.helperCall K β))
    (callsS : List (SingleArgumentFactory.helperCall K α β)) (id : K) (x : α) :
    ((BasicFactory.create (BasicFactory.runCalls callsB registryMapType.empty) id).1 ≠ none
      ↔ id ∈ (BasicFactory.runCalls callsB registryMapType.empty).keys) ∧
    ((SingleArgumentFactory.create
        (SingleArgumentFactory.runCalls callsS registryMapType.empty) id x).1 ≠ none
      ↔ id ∈ (SingleArgumentFactory.runCalls callsS registryMapType.empty).keys) ∧
    (id ∈ (registerCreatorFunc (registryMapType.empty : registryMapType K (Unit → Option β))
        id (fun _ => none)).2.keys ∧
      (BasicFactory.create (registerCreatorFunc
        (registryMapType.empty : registryMapType K (Unit → Option β))
        id (fun _ => none)).2 id).1 = none) ∧
    (id ∈ (registerCreatorFunc (registryMapType.empty : registryMapType K (α → Option β))
        id (fun _ => none)).2.keys ∧
      (SingleArgumentFactory.create (registerCreatorFunc
        (registryMapType.empty : registryMapType K (α → Option β))
        id (fun _ => none)).2 id x).1 = none) := by
  refine ⟨?_, ?_, ?_, ?_⟩
  · exact BasicFactory.create_ne_null_iff
      (BasicFactory.allCreators_runCalls callsB _ (registryMapType.allCreators_empty _)) id
  · exact SingleArgumentFactory.create1_ne_null_iff
      (SingleArgumentFactory.allCreators_runCalls1 callsS _
        (registryMapType.allCreators_empty _)) id x
  · rw [registerCreatorFunc_of_not_mem _ id _ (registryMapType.not_mem_keys_empty id)]
    refine ⟨registryMapType.mem_keys_assign_self _ id _, ?_⟩
    rw [BasicFactory.create_eq_call _ id _ (registryMapType.find_assign_self _ id _)]
  · rw [registerCreatorFunc_of_not_mem _ id _ (registryMapType.not_mem_keys_empty id)]
    refine ⟨registryMapType.mem_keys_assign_self _ id _, ?_⟩
    rw [SingleArgumentFactory.create1_eq_call _ id x _ (registryMapType.find_assign_self _ id _)]

/-- Instance of C20: after the sample calls only id 1 is registered; it is
constructed, and the removed id 5 and the cleared id 2 give null. -/
theorem create_non_null_iff_registered_witness :
    (BasicFactory.runCalls sampleCalls registryMapType.empty).keys = [1] ∧
    (BasicFactory.create (BasicFactory.runCalls sampleCalls registryMapType.empty) 1).1
      ≠ none ∧
    (BasicFactory.create (BasicFactory.runCalls sampleCalls registryMapType.empty) 5).1
      = none ∧
    (BasicFactory.create (BasicFactory.runCalls sampleCalls registryMapType.empty) 2).1
      = none :=
  have h1 := (create_non_null_iff_registered sampleCalls
    ([] : List (SingleArgumentFactory.helperCall Int Int basicFactoryTests.testObject))
    (1 : Int) (0 : Int)).1
  ⟨by decide, h1.2 (by decide), by decide, by decide⟩

end Helpers

end libFactory
